import Mathlib

/-!
Verification of the Shopify Liquid static-analysis toolkit.

This file gives a shallow embedding, in Lean, of the validation engine of the
repository (ultimate-validator.py, liquid-syntax-validator.py,
character-encoding-validator.py, scan-schema-integrity.py) and proves or
refutes the frozen behavioural claims about it.  File contents are modelled as
`List Char`; each Python regex that the source applies is translated into an
explicit character-scanning function whose doc comment quotes the regex it
embeds.  Liquid braces inside string literals are written with the escapes
`\x7b` and `\x7d`.
-/

namespace ShopifyLiquid

/-- Characters of a source file, in order. -/
abbrev Chars := List Char

/-- Python regex whitespace class `\s` (space, tab, newline, CR, VT, FF). -/
def isWs (c : Char) : Bool :=
  c == ' ' || c == '\t' || c == '\n' || c == '\r' || c == '\x0b' || c == '\x0c'

/-- Python regex word class `\w` restricted to ASCII identifiers. -/
def isWordChar (c : Char) : Bool :=
  c.isAlpha || c.isDigit || c == '_'

/-- First character of `[a-zA-Z_]` identifier patterns. -/
def isIdentStart (c : Char) : Bool := c.isAlpha || c == '_'

/-- Does `pat` occur starting at offset `i` of `s`? -/
def occursAt (pat s : Chars) (i : Nat) : Bool := List.isPrefixOf pat (s.drop i)

/-- Substring containment, `pat in s` in Python. -/
def containsSeq (s pat : Chars) : Bool :=
  (List.range (s.length + 1)).any (occursAt pat s)

/-- Offset of the first occurrence of `pat` in `s` (`str.find`), if any. -/
def findSeq (s pat : Chars) : Option Nat :=
  (List.range (s.length + 1)).find? (occursAt pat s)

/-- Line number of a character position: newlines before it plus one
(`_find_line_number` in liquid-syntax-validator.py). -/
def lineNumber (content : Chars) (pos : Nat) : Nat :=
  ((content.take pos).filter (fun c => c == '\n')).length + 1

/-- Column of a character position: length of the current partial line
(`_find_column_number` in liquid-syntax-validator.py). -/
def colNumber (content : Chars) (pos : Nat) : Nat :=
  ((content.take pos).reverse.takeWhile (fun c => c != '\n')).length

/-- Python `str.strip()`: drop whitespace from both ends. -/
def pyStrip (s : Chars) : Chars :=
  ((s.dropWhile isWs).reverse.dropWhile isWs).reverse

/-- Python `str.split()` with no argument: whitespace-separated tokens. -/
def splitWsTokens (fuel : Nat) (s : Chars) : List Chars :=
  match fuel with
  | 0 => []
  | fuel + 1 =>
    let s1 := s.dropWhile isWs
    match s1 with
    | [] => []
    | _ =>
      (s1.takeWhile (fun c => !isWs c)) ::
        splitWsTokens fuel (s1.dropWhile (fun c => !isWs c))

/-- `content.split('\n')`, keeping empty lines. -/
def splitLinesC : Nat → Chars → List Chars
  | 0, s => [s]
  | fuel + 1, s =>
    let pre := s.takeWhile (fun c => c != '\n')
    match s.drop pre.length with
    | '\n' :: rest => pre :: splitLinesC fuel rest
    | _ => [pre]

/-- Python `lines.index`-style search used by `find_line_number` in
ultimate-validator.py: number (1-based) of the first line containing
`term`, or 0 when no line does. -/
def findLineNumber (content term : String) : Nat :=
  match (splitLinesC (content.length + 1) content.toList).findIdx?
      (fun l => containsSeq l term.toList) with
  | some i => i + 1
  | none => 0

/-- Issue severities shared by the validators (`Severity`,
`LiquidErrorSeverity`, `EncodingSeverity` in the sources). -/
inductive Sev where
  | info
  | warning
  | error
  | critical
deriving DecidableEq, Repr

/-- One diagnostic.  Projection of the `ValidationIssue` /
`LiquidValidationIssue` / `EncodingIssue` dataclasses onto the fields the
claims talk about (file path, column and matched-text fields are dropped;
they never influence control flow). -/
structure VIssue where
  issueType : String
  severity : Sev
  line : Nat
  message : String
  suggestion : String
deriving DecidableEq, Repr

/-! ## Tag pairing (liquid-syntax-validator.py, `validate_tag_pairing`) -/

/-- One extracted logic tag: `{'name', 'line', 'column', 'full_content'}`
as built at lines 289-295 of liquid-syntax-validator.py (the byte
`position` field is dropped; it is never read afterwards). -/
structure LTag where
  name : Chars
  line : Nat
  col : Nat
  full : Chars
deriving DecidableEq, Repr

/-- `PAIRED_TAGS` of liquid-syntax-validator.py (keys; the values are always
`"end" + key` and are recomputed by the validator itself). -/
def pairedNames : List Chars :=
  ["if".toList, "unless".toList, "case".toList, "for".toList,
   "capture".toList, "tablerow".toList, "paginate".toList, "form".toList,
   "style".toList, "comment".toList, "schema".toList, "raw".toList]

/-- `SELF_CLOSING_TAGS` of liquid-syntax-validator.py. -/
def SELF_CLOSING_TAGS : List Chars :=
  ["assign".toList, "echo".toList, "increment".toList, "decrement".toList,
   "break".toList, "continue".toList, "include".toList, "render".toList,
   "section".toList, "layout".toList, "cycle".toList, "case".toList,
   "when".toList, "else".toList, "elsif".toList, "elseif".toList]

/-- Membership test `tag_name in self.PAIRED_TAGS`. -/
def isPaired (n : Chars) : Bool := decide (n ∈ pairedNames)

/-- `tag_name.startswith('end')`. -/
def startsWithEnd (n : Chars) : Bool := List.isPrefixOf "end".toList n

/-- `tag_name[3:]` - the expected opening-tag name of an `end...` tag. -/
def expectedOpening (n : Chars) : Chars := n.drop 3

/-- The `end` closing-tag name of an opening tag. -/
def endOf (n : Chars) : Chars := 'e' :: 'n' :: 'd' :: n

/-- Issue built at liquid-syntax-validator.py lines 313-321. -/
def mkUnmatchedEndIssue (t : LTag) : VIssue :=
  ⟨"unmatched_end_tag", Sev.error, t.line,
    "Unexpected " ++ String.mk t.name ++ " - no matching opening tag", ""⟩

/-- Issue built at liquid-syntax-validator.py lines 325-333. -/
def mkMismatchedIssue (top t : LTag) : VIssue :=
  ⟨"mismatched_tags", Sev.error, t.line,
    "Expected end" ++ String.mk top.name ++ ", found " ++ String.mk t.name, ""⟩

/-- Issue built at liquid-syntax-validator.py lines 339-349. -/
def mkUnclosedIssue (t : LTag) : VIssue :=
  ⟨"unclosed_tag", Sev.error, t.line,
    "Unclosed " ++ String.mk t.name ++ " tag",
    "Add \x7b% end" ++ String.mk t.name ++ " %\x7d tag"⟩

/-- The tag-pairing stack machine of liquid-syntax-validator.py lines
298-336: opening paired tags push, `end...` tags pop on an exact match,
report `unmatched_end_tag` on an empty stack and `mismatched_tags`
(without popping) on a wrong top; all other tags are ignored.  The stack
top is the head of the second component. -/
def runPairing : List LTag → List VIssue → List LTag → List VIssue × List LTag
  | [], issues, stack => (issues, stack)
  | t :: ts, issues, stack =>
    if isPaired t.name then
      runPairing ts issues (t :: stack)
    else if startsWithEnd t.name then
      match stack with
      | [] => runPairing ts (issues ++ [mkUnmatchedEndIssue t]) []
      | top :: rest =>
        if top.name = expectedOpening t.name then
          runPairing ts issues rest
        else
          runPairing ts (issues ++ [mkMismatchedIssue top t]) (top :: rest)
    else
      runPairing ts issues stack

/-- Issues of the full pass over an extracted tag list: the run-phase
issues followed by one `unclosed_tag` issue per tag left on the stack, in
insertion order (liquid-syntax-validator.py lines 338-350). -/
def pairingIssues (ts : List LTag) : List VIssue :=
  let r := runPairing ts [] []
  r.1 ++ r.2.reverse.map mkUnclosedIssue

/-- Closing part of the logic-tag regex `\x7b%[\s]*([^%]+?)[\s]*%\x7d`:
given the characters after `\x7b%`, the raw group region runs to the first
`%`, which must be followed by `\x7d` and preceded by at least one
character.  Returns the region and the number of characters consumed
after the opening `\x7b%`. -/
def findTagClose (s : Chars) : Option (Chars × Nat) :=
  let region := s.takeWhile (fun c => c != '%')
  match s.drop region.length with
  | '%' :: '\x7d' :: _ =>
    if region.isEmpty then none else some (region, region.length + 2)
  | _ => none

/-- `finditer` of the logic-tag pattern: leftmost, non-overlapping matches,
as `(match-start, raw group region)` pairs. -/
def extractLogicTags (fuel : Nat) (s : Chars) (pos : Nat) : List (Nat × Chars) :=
  match fuel with
  | 0 => []
  | fuel + 1 =>
    match s with
    | [] => []
    | '\x7b' :: '%' :: rest =>
      match findTagClose rest with
      | some (region, k) =>
        (pos, region) :: extractLogicTags fuel (rest.drop k) (pos + 2 + k)
      | none => extractLogicTags fuel ('%' :: rest) (pos + 1)
    | _ :: rest => extractLogicTags fuel rest (pos + 1)

/-- Build the tag record of one logic-tag match: the stripped tag content,
its first whitespace token as the name, and line/column looked up in the
original (uncleaned) content, exactly as in liquid-syntax-validator.py
lines 280-295 (tags whose stripped content has no token are skipped). -/
def mkTag (orig : Chars) (p : Nat × Chars) : Option LTag :=
  let tagContent := pyStrip p.2
  match splitWsTokens (tagContent.length + 1) tagContent with
  | [] => none
  | n :: _ => some ⟨n, lineNumber orig p.1, colNumber orig p.1, tagContent⟩

/-- All logic tags of the cleaned content, with positions resolved against
the original content. -/
def logicTagsOf (orig cleaned : Chars) : List LTag :=
  (extractLogicTags (cleaned.length + 1) cleaned 0).filterMap (mkTag orig)

/-- Match of the simple block marker `\x7b%[\s]*word[\s]*%\x7d` at the head
of `s`; returns the number of characters consumed. -/
def matchSimpleMarker (word : Chars) (s : Chars) : Option Nat :=
  match s with
  | '\x7b' :: '%' :: rest =>
    let r1 := rest.dropWhile isWs
    if List.isPrefixOf word r1 then
      let r2 := (r1.drop word.length).dropWhile isWs
      match r2 with
      | '%' :: '\x7d' :: _ => some (s.length - r2.length + 2)
      | _ => none
    else none
  | _ => none

/-- First offset at which a marker matcher succeeds, with its consumed
length. -/
def findMarkerG (m : Chars → Option Nat) (fuel : Nat) (s : Chars) (acc : Nat) :
    Option (Nat × Nat) :=
  match fuel with
  | 0 => none
  | fuel + 1 =>
    match m s with
    | some k => some (acc, k)
    | none =>
      match s with
      | [] => none
      | _ :: rest => findMarkerG m fuel rest (acc + 1)

/-- `re.sub(open (.*?) close, '', s, flags=DOTALL)` for a pair of block
markers: each opener is deleted together with everything up to the first
matching closer; an opener with no closer is left in place, mirroring a
failed regex match. -/
def removeBlocksG (openM closeM : Chars → Option Nat) (fuel : Nat) (s : Chars) :
    Chars :=
  match fuel with
  | 0 => s
  | fuel + 1 =>
    match s with
    | [] => []
    | c :: rest =>
      match openM s with
      | some k =>
        match findMarkerG closeM (s.length + 1) (s.drop k) 0 with
        | some jm => removeBlocksG openM closeM fuel (s.drop (k + jm.1 + jm.2))
        | none => c :: removeBlocksG openM closeM fuel rest
      | none => c :: removeBlocksG openM closeM fuel rest

/-- `self.LIQUID_TAG_PATTERNS['raw_tag'].sub('', content)`. -/
def removeRawBlocks (s : Chars) : Chars :=
  removeBlocksG (matchSimpleMarker "raw".toList)
    (matchSimpleMarker "endraw".toList) (s.length + 1) s

/-- `self.LIQUID_TAG_PATTERNS['comment_tag'].sub('', content)`. -/
def removeCommentBlocks (s : Chars) : Chars :=
  removeBlocksG (matchSimpleMarker "comment".toList)
    (matchSimpleMarker "endcomment".toList) (s.length + 1) s

/-- `validate_tag_pairing` of liquid-syntax-validator.py (lines 271-352):
raw and comment blocks are removed, logic tags are extracted from the
cleaned content (with line/column looked up in the original content), and
the pairing stack machine reports unmatched, mismatched and unclosed
tags. -/
def validate_tag_pairing (content : String) : List VIssue :=
  let orig := content.toList
  let cleaned := removeCommentBlocks (removeRawBlocks orig)
  pairingIssues (logicTagsOf orig cleaned)

/-- The tag list that `validate_tag_pairing` feeds to its pairing stack. -/
def tagsOf (content : String) : List LTag :=
  logicTagsOf content.toList (removeCommentBlocks (removeRawBlocks content.toList))

/-- Well-matched tag sequences: the hypothesis of the tag-balance claim.
Every opening tag of the paired set is closed by exactly one
correctly-ordered `end` tag, and there are no other `end`-named tags. -/
inductive Balanced : List LTag → Prop where
  | nil : Balanced []
  | pair (t e : LTag) (inner outer : List LTag) :
      isPaired t.name = true → e.name = endOf t.name →
      Balanced inner → Balanced outer →
      Balanced (t :: inner ++ e :: outer)
  | skip (t : LTag) (rest : List LTag) :
      isPaired t.name = false → startsWithEnd t.name = false →
      Balanced rest → Balanced (t :: rest)

/-- Tags that push onto the pairing stack. -/
def isOpenTag (t : LTag) : Bool := isPaired t.name

/-- Tags that take the closing branch of the pairing machine. -/
def isEndTag (t : LTag) : Bool := !isPaired t.name && startsWithEnd t.name

/-- Number of `unclosed_tag` issues in a diagnostic list. -/
def unclosedCount (issues : List VIssue) : Nat :=
  (issues.filter (fun i => i.issueType == "unclosed_tag")).length

/-! ## Filter legality (ultimate-validator.py, `validate_liquid_filters`,
`validate_deprecated_filters`) -/

/-- `OFFICIAL_FILTERS` of ultimate-validator.py (lines 162-213). -/
def OFFICIAL_FILTERS : List String :=
  ["append", "capitalize", "downcase", "escape", "lstrip", "newline_to_br",
   "prepend", "remove", "remove_first", "replace", "replace_first", "rstrip",
   "slice", "split", "strip", "strip_html", "strip_newlines", "truncate",
   "truncatewords", "upcase", "url_encode", "url_decode",
   "abs", "at_least", "at_most", "ceil", "divided_by", "floor", "minus",
   "modulo", "plus", "round", "times",
   "concat", "first", "join", "last", "map", "reverse", "size", "sort",
   "sort_natural", "uniq", "where", "compact",
   "date",
   "default", "json",
   "handleize", "md5", "pluralize",
   "asset_img_url", "asset_url", "customer_login_link", "customer_logout_link",
   "customer_register_link", "file_img_url", "file_url", "global_asset_url",
   "image_url", "img_url", "link_to", "link_to_add_tag", "link_to_remove_tag",
   "link_to_tag", "link_to_type", "link_to_vendor", "payment_type_img_url",
   "shopify_asset_url", "url_for_type", "url_for_vendor", "within",
   "highlight", "highlight_active_tag", "img_tag", "placeholder_svg_tag",
   "script_tag", "stylesheet_tag", "time_tag",
   "color_brightness", "color_darken", "color_desaturate", "color_lighten",
   "color_mix", "color_modify", "color_saturate",
   "money", "money_with_currency", "money_without_currency",
   "money_without_trailing_zeros",
   "t", "translate",
   "article_img_url", "blog_img_url", "cart_url", "collection_img_url",
   "external_video_tag", "external_video_url", "font_face", "font_modify",
   "font_url", "format_address", "metafield_tag", "metafield_text",
   "model_viewer_tag", "page_description", "page_title", "product_img_url",
   "sort_by", "video_tag", "weight_with_unit"]

/-- The message constant `RENDER_TAG_MESSAGE` of ultimate-validator.py. -/
def RENDER_TAG_MESSAGE : String := "DOES NOT EXIST - Use \x7b% render %\x7d tag"

/-- `HALLUCINATED_FILTERS` of ultimate-validator.py (lines 216-236): each
made-up filter name with its tailored corrective suggestion. -/
def HALLUCINATED_FILTERS : List (String × String) :=
  [("color_extract", "DOES NOT EXIST - Use color_brightness, color_lighten, etc."),
   ("rgb", "DOES NOT EXIST - Use CSS rgb() directly"),
   ("rgba", "DOES NOT EXIST - Use CSS rgba() directly"),
   ("hex_to_rgb", "DOES NOT EXIST - Use CSS or color filters"),
   ("color_to_rgb", "DOES NOT EXIST - Use CSS or color filters"),
   ("extract", "DOES NOT EXIST - Use object properties directly"),
   ("get", "DOES NOT EXIST - Use bracket notation [key]"),
   ("fetch", "DOES NOT EXIST - Use assign statements"),
   ("parse", "DOES NOT EXIST - Use split or string filters"),
   ("eval", "DOES NOT EXIST - Would be dangerous anyway"),
   ("execute", "DOES NOT EXIST - Would be dangerous anyway"),
   ("include", "DOES NOT EXIST - Use \x7b% include %\x7d tag"),
   ("render", RENDER_TAG_MESSAGE),
   ("partial", RENDER_TAG_MESSAGE),
   ("template", RENDER_TAG_MESSAGE),
   ("component", RENDER_TAG_MESSAGE),
   ("load", "DOES NOT EXIST - Use assign statements"),
   ("require", "DOES NOT EXIST - Not available in Liquid"),
   ("import", "DOES NOT EXIST - Not available in Liquid")]

/-- `re.findall` of the filter-name pattern `\|\s*([a-zA-Z_][a-zA-Z0-9_]*)`
inside one Liquid block: a pipe, optional whitespace, then a maximal
identifier. -/
def filterNamesIn (fuel : Nat) (s : Chars) : List Chars :=
  match fuel, s with
  | 0, _ => []
  | _, [] => []
  | fuel + 1, '|' :: rest =>
    let r1 := rest.dropWhile isWs
    match r1 with
    | c :: _ =>
      if isIdentStart c then
        let ident := r1.takeWhile isWordChar
        ident :: filterNamesIn fuel (r1.drop ident.length)
      else filterNamesIn fuel rest
    | [] => []
  | fuel + 1, _ :: rest => filterNamesIn fuel rest

/-- `re.findall(r'\x7b\x7b[^\x7d]*\x7d\x7d|\x7b%[^%]*%\x7d', content)` -
the Liquid block list scanned by `validate_liquid_filters`. -/
def liquidBlocks (fuel : Nat) (s : Chars) : List Chars :=
  match fuel, s with
  | 0, _ => []
  | _, [] => []
  | fuel + 1, '\x7b' :: '\x7b' :: rest =>
    let region := rest.takeWhile (fun c => c != '\x7d')
    match rest.drop region.length with
    | '\x7d' :: '\x7d' :: rest2 =>
      ('\x7b' :: '\x7b' :: (region ++ ['\x7d', '\x7d'])) :: liquidBlocks fuel rest2
    | _ => liquidBlocks fuel ('\x7b' :: rest)
  | fuel + 1, '\x7b' :: '%' :: rest =>
    let region := rest.takeWhile (fun c => c != '%')
    match rest.drop region.length with
    | '%' :: '\x7d' :: rest2 =>
      ('\x7b' :: '%' :: (region ++ ['%', '\x7d'])) :: liquidBlocks fuel rest2
    | _ => liquidBlocks fuel ('%' :: rest)
  | fuel + 1, _ :: rest => liquidBlocks fuel rest

/-- The `used_filters` set of `validate_liquid_filters`: every filter name
found in any Liquid block, without duplicates (the Python `set` is
modelled as a duplicate-free list; its iteration order is unspecified in
the source, so no claim depends on the order chosen here). -/
def usedFilters (content : String) : List String :=
  (((liquidBlocks (content.length + 1) content.toList).flatMap
    (fun b => filterNamesIn (b.length + 1) b)).map String.mk).dedup

/-- Loop body of `validate_liquid_filters` (ultimate-validator.py lines
1525-1545) for one filter name: a Critical `hallucinated_filter` issue
with its tailored suggestion, or a Critical `unknown_filter` issue, or
nothing for an official filter.  The quotes the Python f-strings put
around the name are not reproduced in the message. -/
def classifyFilter (content : String) (f : String) : List VIssue :=
  let lineNum := findLineNumber content ("| " ++ f)
  match HALLUCINATED_FILTERS.lookup f with
  | some sugg =>
    [⟨"hallucinated_filter", Sev.critical, lineNum,
      "HALLUCINATED FILTER: " ++ f ++ " DOES NOT EXIST", sugg⟩]
  | none =>
    if f ∈ OFFICIAL_FILTERS then []
    else
      [⟨"unknown_filter", Sev.critical, lineNum,
        "UNKNOWN FILTER: " ++ f ++ " not in Shopify Liquid",
        "Verify this filter exists in official Shopify documentation"⟩]

/-- `validate_liquid_filters` of ultimate-validator.py (lines 1515-1545). -/
def validate_liquid_filters (content : String) : List VIssue :=
  (usedFilters content).flatMap (classifyFilter content)

/-- The `deprecated_filters` table of `validate_deprecated_filters`
(ultimate-validator.py lines 784-790). -/
def deprecatedFilterPairs : List (String × String) :=
  [("| img_url", "| image_url"),
   ("| asset_img_url", "| image_url"),
   ("| collection_img_url", "| image_url"),
   ("| article_img_url", "| image_url"),
   ("| blog_img_url", "| image_url")]

/-- `validate_deprecated_filters` of ultimate-validator.py (lines 780-802):
one Warning per deprecated `| name` occurring as a substring of the
content. -/
def validate_deprecated_filters (content : String) : List VIssue :=
  deprecatedFilterPairs.flatMap fun p =>
    if containsSeq content.toList p.1.toList then
      [⟨"deprecated_filter", Sev.warning, findLineNumber content p.1,
        "Deprecated filter: " ++ p.1, "Use " ++ p.2 ++ " instead"⟩]
    else []

/-! ## JSON values (the result of `json.loads` on a schema block) -/

/-- Parsed JSON values.  Numbers are modelled as rationals: the claims use
only exact arithmetic, so Python float rounding is not reproduced. -/
inductive Json where
  | null
  | jbool (b : Bool)
  | jnum (q : ℚ)
  | jstr (s : String)
  | jarr (elems : List Json)
  | jobj (fields : List (String × Json))

/-- Python `dict.get(k)`: `json.loads` keeps the last of duplicate keys,
so lookup runs over the reversed field list. -/
def jget : Json → String → Option Json
  | Json.jobj fs, k => fs.reverse.lookup k
  | _, _ => none

/-- `obj.get(k, [])` followed by iteration: the element list when the value
is a JSON array, `[]` when the key is absent.  A present non-array value
would raise a `TypeError` in the Python loops and is outside the modelled
domain. -/
def getList (j : Json) (k : String) : List Json :=
  match jget j k with
  | some (Json.jarr xs) => xs
  | _ => none |>.getD []

/-- String-valued field access. -/
def getStrOpt (j : Json) (k : String) : Option String :=
  match jget j k with
  | some (Json.jstr s) => some s
  | _ => none

/-- Python truthiness of an optional JSON value (`if block.get('settings')`). -/
def jtruthy : Option Json → Bool
  | none => false
  | some Json.null => false
  | some (Json.jbool b) => b
  | some (Json.jnum q) => decide (q ≠ 0)
  | some (Json.jstr s) => decide (s ≠ "")
  | some (Json.jarr xs) => !xs.isEmpty
  | some (Json.jobj fs) => !fs.isEmpty

/-- `'k' in dict`. -/
def hasKey (j : Json) (k : String) : Bool := (jget j k).isSome

/-! ## Duplicate setting IDs (scan-schema-integrity.py, step 7 of
`validate_schema_integrity`) -/

/-- Truthy string ids of a settings array
(`[s.get('id') for s in settings if s.get('id')]`; ids are modelled as
strings - the check never produces ids of other JSON types from the
schemas it is specified on). -/
def idsOfSettingList (settings : List Json) : List String :=
  settings.filterMap fun s =>
    match getStrOpt s "id" with
    | some v => if v = "" then none else some v
    | none => none

/-- `setting_ids` of scan-schema-integrity.py line 170: top-level
`settings[]` ids only. -/
def scanTopSettingIds (schema : Json) : List String :=
  idsOfSettingList (getList schema "settings")

/-- `duplicate_ids` of scan-schema-integrity.py line 171: the distinct
top-level ids occurring more than once (the Python `set` is modelled as a
duplicate-free list). -/
def scanDuplicateIds (schema : Json) : List String :=
  (scanTopSettingIds schema).dedup.filter
    (fun i => 1 < List.count i (scanTopSettingIds schema))

/-- The duplicate-ID error strings appended at scan-schema-integrity.py
line 173 (the Python f-string quotes around the id are not reproduced). -/
def scanDuplicateIdErrors (schema : Json) : List String :=
  (scanDuplicateIds schema).map (fun i => "Duplicate setting ID: " ++ i)

/-- Modelled from the spec words of claim C6: the flattened setting ids,
"including block-level `blocks[].settings[]` as well as top-level
`settings[]`".  This is the claim-side notion the code is compared
against; the code itself (`scanTopSettingIds`) uses only the top level. -/
def specFlattenedIds (schema : Json) : List String :=
  scanTopSettingIds schema ++
    (getList schema "blocks").flatMap (fun b => idsOfSettingList (getList b "settings"))

/-! ## Validation levels and the final verdict (ultimate-validator.py,
`level_config`, `add_issue`, `generate_final_report`;
character-encoding-validator.py, `main`) -/

/-- The three validation levels of `level_config`. -/
inductive VLevel where
  | development
  | production
  | ultimate
deriving DecidableEq, Repr

/-- `allowed_severities` of `level_config` (ultimate-validator.py lines
404-420). -/
def allowedSeverities : VLevel → List Sev
  | VLevel.development => [Sev.critical, Sev.error]
  | VLevel.production => [Sev.critical, Sev.error, Sev.warning]
  | VLevel.ultimate => [Sev.critical, Sev.error, Sev.warning, Sev.info]

/-- `add_issue` of ultimate-validator.py (lines 1487-1505): an issue is
recorded only when its severity is allowed at the configured level (the
`[CHECKLIST: ...]` message suffix is not modelled). -/
def addIssue (level : VLevel) (issues : List VIssue) (i : VIssue) : List VIssue :=
  if i.severity ∈ allowedSeverities level then issues ++ [i] else issues

/-- The issue list accumulated by a run that reports `raw` in order
through `add_issue`. -/
def recordIssues (level : VLevel) (raw : List VIssue) : List VIssue :=
  raw.foldl (addIssue level) []

/-- Number of recorded issues of one severity. -/
def countSev (s : Sev) (issues : List VIssue) : Nat :=
  (issues.filter (fun i => i.severity == s)).length

/-- Verdict of `generate_final_report` (ultimate-validator.py lines
1991-1992 and 2054-2068): `total_critical = len(critical) + len(error)`;
the run passes iff it is zero. -/
def generateFinalReportPasses (issues : List VIssue) : Bool :=
  countSev Sev.critical issues + countSev Sev.error issues == 0

/-- Exit code of character-encoding-validator.py `main` (lines 1052-1061):
2 with Critical issues, 1 with Error issues only, 0 otherwise. -/
def charValidatorExitCode (issues : List VIssue) : Nat :=
  if 0 < countSev Sev.critical issues then 2
  else if 0 < countSev Sev.error issues then 1
  else 0

/-! ## Pattern-matching scaffolding for the content checks -/

/-- Literal regex fragment: consume `lit` from the front. -/
def afterLiteral (lit : String) (s : Chars) : Option Chars :=
  if List.isPrefixOf lit.toList s then some (s.drop lit.toList.length) else none

/-- Fragment `\s+`: at least one whitespace character. -/
def wsPlus (s : Chars) : Option Chars :=
  let w := s.takeWhile isWs
  if w.isEmpty then none else some (s.drop w.length)

/-- Fragment `\s*`. -/
def wsStar (s : Chars) : Chars := s.dropWhile isWs

/-- Fragment `\w+`. -/
def wordPlus (s : Chars) : Option Chars :=
  let w := s.takeWhile isWordChar
  if w.isEmpty then none else some (s.drop w.length)

/-- Fragment `[\w\.]+`. -/
def wordDotPlus (s : Chars) : Option Chars :=
  let w := s.takeWhile (fun c => isWordChar c || c == '.')
  if w.isEmpty then none else some (s.drop w.length)

/-- Fragment `["\']`: one quote of either kind. -/
def matchQuote (s : Chars) : Option Chars :=
  match s with
  | '"' :: r => some r
  | '\x27' :: r => some r
  | _ => none

/-- Fragment `https?://`. -/
def matchHttpScheme (s : Chars) : Option Chars := do
  let s1 ← afterLiteral "http" s
  let s2 := match s1 with
    | 's' :: r => r
    | _ => s1
  afterLiteral "://" s2

/-- A whole-pattern matcher returns the match length at the head of the
suffix, when the pattern matches there. -/
def literalMatcher (lit : String) (s : Chars) : Option Nat :=
  if List.isPrefixOf lit.toList s then some lit.toList.length else none

/-- `re.finditer`: leftmost non-overlapping matches of a matcher, as
`(start, length)` pairs. -/
def finditerG (m : Chars → Option Nat) : Nat → Chars → Nat → List (Nat × Nat)
  | 0, _, _ => []
  | fuel + 1, s, pos =>
    match s with
    | [] => []
    | _ :: rest =>
      match m s with
      | some len =>
        if len = 0 then (pos, len) :: finditerG m fuel rest (pos + 1)
        else (pos, len) :: finditerG m fuel (s.drop len) (pos + len)
      | none => finditerG m fuel rest (pos + 1)

/-- `re.finditer` for matchers that also return a captured group. -/
def finditerP {α : Type} (m : Chars → Option (Nat × α)) :
    Nat → Chars → Nat → List (Nat × α)
  | 0, _, _ => []
  | fuel + 1, s, pos =>
    match s with
    | [] => []
    | _ :: rest =>
      match m s with
      | some (len, a) =>
        if len = 0 then (pos, a) :: finditerP m fuel rest (pos + 1)
        else (pos, a) :: finditerP m fuel (s.drop len) (pos + len)
      | none => finditerP m fuel rest (pos + 1)

/-- Severity, message and suggestion of one pattern-table entry. -/
structure PatternRule where
  sev : Sev
  msg : String
  sugg : String

/-! ## Comment stripping and the complexity / performance / Theme-Store
checks (ultimate-validator.py) -/

/-- Marker `\x7b%-?\s*word\s*-?%\x7d` used by `_remove_liquid_comments`. -/
def matchDashMarker (word : Chars) (s : Chars) : Option Nat :=
  match s with
  | '\x7b' :: '%' :: rest =>
    let r0 := match rest with
      | '-' :: r => r
      | _ => rest
    let r1 := r0.dropWhile isWs
    if List.isPrefixOf word r1 then
      let r2 := (r1.drop word.length).dropWhile isWs
      let r3 := match r2 with
        | '-' :: r => r
        | _ => r2
      match r3 with
      | '%' :: '\x7d' :: _ => some (s.length - r3.length + 2)
      | _ => none
    else none
  | _ => none

/-- `_remove_liquid_comments` of ultimate-validator.py (lines 1658-1662):
`re.sub(r'\x7b%-?\s*comment\s*-?%\x7d.*?\x7b%-?\s*endcomment\s*-?%\x7d', '',
content, flags=re.DOTALL)`. -/
def removeLiquidComments (s : Chars) : Chars :=
  removeBlocksG (matchDashMarker "comment".toList)
    (matchDashMarker "endcomment".toList) (s.length + 1) s

/-- One repetition of the complexity unit `\|\s*\w+\s*`. -/
def matchFilterChainUnit (s : Chars) : Option Chars := do
  let s1 ← afterLiteral "|" s
  let s2 := wsStar s1
  let s3 ← wordPlus s2
  pure (wsStar s3)

/-- Greedy repetition count of a unit matcher, with the rest. -/
def countUnits (m : Chars → Option Chars) : Nat → Chars → Nat × Chars
  | 0, s => (0, s)
  | fuel + 1, s =>
    match m s with
    | some r =>
      if r.length < s.length then
        let p := countUnits m fuel r
        (p.1 + 1, p.2)
      else (0, s)
    | none => (0, s)

/-- The one active complexity pattern `(\|\s*\w+\s*)\x7b10,\x7d` of
`COMPLEXITY_PATTERNS` (ultimate-validator.py line 277): ten or more
chained filters. -/
def matchFilterChain (s : Chars) : Option Nat :=
  let p := countUnits matchFilterChainUnit (s.length + 1) s
  if 10 ≤ p.1 then some (s.length - p.2.length) else none

/-- `validate_complexity` of ultimate-validator.py (lines 1597-1617):
the pattern is matched against the comment-stripped content, line numbers
are resolved against the original content (source quirk preserved). -/
def validate_complexity (content : String) : List VIssue :=
  let orig := content.toList
  let cnc := removeLiquidComments orig
  (finditerG matchFilterChain (cnc.length + 1) cnc 0).map fun m =>
    ⟨"complexity", Sev.critical, lineNumber orig m.1,
      "OVER-ENGINEERED: 10+ filter chains are unreadable",
      "Break into multiple assign statements"⟩

/-- Performance pattern 3, `\x7b% for collection in collections %\x7d(?!.*limit:)`
(DOTALL, so the lookahead scans the whole remaining content). -/
def matchForCollectionsNoLimit (s : Chars) : Option Nat :=
  match literalMatcher "\x7b% for collection in collections %\x7d" s with
  | some len =>
    if containsSeq (s.drop len) "limit:".toList then none else some len
  | none => none

/-- Performance pattern 4, `image_url:\s*width:\s*[4-9]\d\x7b3,\x7d`. -/
def matchWideImageUrl (s : Chars) : Option Nat := do
  let s1 ← afterLiteral "image_url:" s
  let s2 := wsStar s1
  let s3 ← afterLiteral "width:" s2
  let s4 := wsStar s3
  match s4 with
  | c :: s5 =>
    if '4' ≤ c && c ≤ '9' then
      let digits := s5.takeWhile Char.isDigit
      if 3 ≤ digits.length then some (s.length - s5.length + digits.length)
      else none
    else none
  | [] => none

/-- Head of performance pattern 5: `\x7b%\s*for\s+\w+\s+in\s+[\w\.]+\s*%\x7d`. -/
def matchForOpenTag (s : Chars) : Option Nat := do
  let s1 ← afterLiteral "\x7b%" s
  let s2 := wsStar s1
  let s3 ← afterLiteral "for" s2
  let s4 ← wsPlus s3
  let s5 ← wordPlus s4
  let s6 ← wsPlus s5
  let s7 ← afterLiteral "in" s6
  let s8 ← wsPlus s7
  let s9 ← wordDotPlus s8
  let s10 := wsStar s9
  let s11 ← afterLiteral "%\x7d" s10
  pure (s.length - s11.length)

/-- Fragment `\x7b%\s*unless\s+` of performance pattern 5. -/
def matchUnlessOpen (s : Chars) : Option Nat := do
  let s1 ← afterLiteral "\x7b%" s
  let s2 := wsStar s1
  let s3 ← afterLiteral "unless" s2
  let s4 ← wsPlus s3
  pure (s.length - s4.length)

/-- Performance pattern 5,
`\x7b%\s*for...%\x7d[\s\S]*?\x7b%\s*unless\s+[\s\S]*?\x7b%\s*endunless\s*%\x7d[\s\S]*?\x7b%\s*endfor\s*%\x7d`:
a for-open tag followed - lazily, so at the earliest positions - by an
unless opener, an endunless marker and an endfor marker. -/
def matchForUnlessChain (s : Chars) : Option Nat := do
  let len0 ← matchForOpenTag s
  let r0 := s.drop len0
  let j1 ← findMarkerG matchUnlessOpen (r0.length + 1) r0 0
  let r1 := r0.drop (j1.1 + j1.2)
  let j2 ← findMarkerG (matchSimpleMarker "endunless".toList) (r1.length + 1) r1 0
  let r2 := r1.drop (j2.1 + j2.2)
  let j3 ← findMarkerG (matchSimpleMarker "endfor".toList) (r2.length + 1) r2 0
  pure (len0 + j1.1 + j1.2 + j2.1 + j2.2 + j3.1 + j3.2)

/-- One repetition of the unit `\x7b%\s*assign\s+[\w_]+\s*=.*?%\x7d\s*` of
performance pattern 6 (DOTALL: the lazy `.*?` runs to the first `%\x7d`). -/
def matchAssignUnit (s : Chars) : Option Chars := do
  let s1 ← afterLiteral "\x7b%" s
  let s2 := wsStar s1
  let s3 ← afterLiteral "assign" s2
  let s4 ← wsPlus s3
  let s5 ← wordPlus s4
  let s6 := wsStar s5
  let s7 ← afterLiteral "=" s6
  let j ← findSeq s7 "%\x7d".toList
  pure ((s7.drop (j + 2)).dropWhile isWs)

/-- Performance pattern 6, `(?:\x7b%\s*assign\s+[\w_]+\s*=.*?%\x7d\s*)\x7b5,\x7d`. -/
def matchAssignRun (s : Chars) : Option Nat :=
  let p := countUnits matchAssignUnit (s.length + 1) s
  if 5 ≤ p.1 then some (s.length - p.2.length) else none

/-- `validate_performance` of ultimate-validator.py (lines 1619-1635) over
the `PERFORMANCE_KILLERS` table (lines 316-355): each pattern is matched
against the raw content - comments are NOT stripped here - and yields one
issue per match, in table order. -/
def validate_performance (content : String) : List VIssue :=
  let s := content.toList
  let fi := fun m => finditerG m (s.length + 1) s 0
  let issue := fun (r : PatternRule) (m : Nat × Nat) =>
    (⟨"performance", r.sev, lineNumber s m.1, r.msg, r.sugg⟩ : VIssue)
  (fi (literalMatcher "\x7b% for product in collections.all.products %\x7d")).map
    (issue ⟨Sev.critical, "PERFORMANCE KILLER: Looping ALL products breaks themes",
      "Use pagination or specific collection"⟩) ++
  (fi (literalMatcher "collections.all.products.size")).map
    (issue ⟨Sev.critical, "PERFORMANCE KILLER: Counting all products is slow",
      "Use collections[handle].products_count"⟩) ++
  (fi matchForCollectionsNoLimit).map
    (issue ⟨Sev.critical, "PERFORMANCE KILLER: Looping all collections without limit",
      "Add | limit: 50 or use specific collections"⟩) ++
  (fi matchWideImageUrl).map
    (issue ⟨Sev.error, "PERFORMANCE KILLER: Images >4000px waste bandwidth",
      "Use maximum 3000px width for performance"⟩) ++
  (fi matchForUnlessChain).map
    (issue ⟨Sev.error, "PERFORMANCE KILLER: Unless inside loops is inefficient",
      "Filter data before loop or use if statements"⟩) ++
  (fi matchAssignRun).map
    (issue ⟨Sev.warning, "PERFORMANCE KILLER: Many assigns before loops",
      "Move assigns outside loops when possible"⟩)

/-- Theme-Store pattern 1,
`<script\s+src=["\']https?://(?!cdn\.shopify\.com|ajax\.googleapis\.com/ajax/libs/jquery)`. -/
def matchExternalScript (s : Chars) : Option Nat := do
  let s1 ← afterLiteral "<script" s
  let s2 ← wsPlus s1
  let s3 ← afterLiteral "src=" s2
  let s4 ← matchQuote s3
  let s5 ← matchHttpScheme s4
  if List.isPrefixOf "cdn.shopify.com".toList s5 then none
  else if List.isPrefixOf "ajax.googleapis.com/ajax/libs/jquery".toList s5 then none
  else pure (s.length - s5.length)

/-- Fragment `rel=["\']stylesheet["\']` of Theme-Store pattern 2. -/
def relStylesheetLit (s : Chars) : Option Chars := do
  let s1 ← afterLiteral "rel=" s
  let s2 ← matchQuote s1
  let s3 ← afterLiteral "stylesheet" s2
  matchQuote s3

/-- Fragment `href=["\']https?://(?!...)` of Theme-Store pattern 2. -/
def hrefExternalLit (s : Chars) : Option Chars := do
  let s1 ← afterLiteral "href=" s
  let s2 ← matchQuote s1
  let s3 ← matchHttpScheme s2
  if List.isPrefixOf "cdn.shopify.com".toList s3 then none
  else if List.isPrefixOf "fonts.googleapis.com".toList s3 then none
  else if List.isPrefixOf "fonts.shopifycdn.com".toList s3 then none
  else pure s3

/-- Scan for a sub-matcher across a `[^>]*` gap: try at each position until
a `>` is reached (existence semantics of the backtracking regex). -/
def scanNoGt (m : Chars → Option Chars) : Nat → Chars → Option Chars
  | 0, _ => none
  | fuel + 1, s =>
    match m s with
    | some r => some r
    | none =>
      match s with
      | [] => none
      | c :: rest => if c == '>' then none else scanNoGt m fuel rest

/-- Theme-Store pattern 2,
`<link\s+[^>]*rel=["\']stylesheet["\'][^>]*href=["\']https?://(?!...)`. -/
def matchExternalStylesheet (s : Chars) : Option Nat := do
  let s1 ← afterLiteral "<link" s
  let s2 ← wsPlus s1
  let s3 ← scanNoGt relStylesheetLit (s2.length + 1) s2
  let s4 ← scanNoGt hrefExternalLit (s3.length + 1) s3
  pure (s.length - s4.length)

/-- Theme-Store pattern 3, `@import\s+["\']https?://(?!fonts\.googleapis\.com)`. -/
def matchCssImport (s : Chars) : Option Nat := do
  let s1 ← afterLiteral "@import" s
  let s2 ← wsPlus s1
  let s3 ← matchQuote s2
  let s4 ← matchHttpScheme s3
  if List.isPrefixOf "fonts.googleapis.com".toList s4 then none
  else pure (s.length - s4.length)

/-- Theme-Store pattern 4, `console\.(log|error|warn|info|debug)`. -/
def matchConsoleCall (s : Chars) : Option Nat := do
  let s1 ← afterLiteral "console." s
  let s2 ← ["log", "error", "warn", "info", "debug"].findSome?
    (fun w => afterLiteral w s1)
  pure (s.length - s2.length)

/-- Theme-Store pattern 5, `alert\s*\(`. -/
def matchAlertCall (s : Chars) : Option Nat := do
  let s1 ← afterLiteral "alert" s
  let s2 ← afterLiteral "(" (wsStar s1)
  pure (s.length - s2.length)

/-- Theme-Store pattern 6, `document\.write\s*\(`. -/
def matchDocumentWrite (s : Chars) : Option Nat := do
  let s1 ← afterLiteral "document.write" s
  let s2 ← afterLiteral "(" (wsStar s1)
  pure (s.length - s2.length)

/-- Line lookup of `validate_theme_store`: the matched text (a slice of the
comment-stripped content) is searched for in the original content
(`content.find(match.group(0))`, 0 when absent). -/
def themeStoreLine (orig cnc : Chars) (m : Nat × Nat) : Nat :=
  match findSeq orig ((cnc.drop m.1).take m.2) with
  | some i => lineNumber orig i
  | none => 0

/-- `validate_theme_store` of ultimate-validator.py (lines 1637-1656) over
the `THEME_STORE_VIOLATIONS` table (lines 358-395): patterns are matched
against the comment-stripped content; line numbers are looked up in the
original content. -/
def validate_theme_store (content : String) : List VIssue :=
  let orig := content.toList
  let cnc := removeLiquidComments orig
  let fi := fun m => finditerG m (cnc.length + 1) cnc 0
  let issue := fun (r : PatternRule) (m : Nat × Nat) =>
    (⟨"theme_store", r.sev, themeStoreLine orig cnc m, r.msg, r.sugg⟩ : VIssue)
  (fi matchExternalScript).map
    (issue ⟨Sev.critical, "THEME STORE VIOLATION: External scripts not allowed",
      "Host scripts locally or use Shopify CDN"⟩) ++
  (fi matchExternalStylesheet).map
    (issue ⟨Sev.critical, "THEME STORE VIOLATION: External stylesheets not allowed",
      "Host CSS locally or use approved CDNs"⟩) ++
  (fi matchCssImport).map
    (issue ⟨Sev.error, "THEME STORE VIOLATION: External CSS imports not allowed",
      "Include CSS directly in files"⟩) ++
  (fi matchConsoleCall).map
    (issue ⟨Sev.error, "THEME STORE VIOLATION: Console statements must be removed",
      "Remove all console statements for production"⟩) ++
  (fi matchAlertCall).map
    (issue ⟨Sev.critical, "THEME STORE VIOLATION: Alert dialogs not allowed",
      "Use proper UI notifications instead"⟩) ++
  (fi matchDocumentWrite).map
    (issue ⟨Sev.critical, "THEME STORE VIOLATION: document.write breaks modern browsers",
      "Use proper DOM manipulation"⟩)

/-! ## Suspicious objects (ultimate-validator.py, `validate_shopify_objects`) -/

/-- `_get_suspicious_objects` (ultimate-validator.py lines 1547-1558). -/
def SUSPICIOUS_OBJECTS : List (String × String) :=
  [("products", "Use collections[handle].products or search.results"),
   ("items", "Not a Shopify object - use cart.items or line_items"),
   ("data", "Not a Shopify object - use metaobjects or settings"),
   ("config", "Not a Shopify object - use settings"),
   ("theme", "Not a Shopify object - use settings"),
   ("store", "Not a Shopify object - use shop"),
   ("user", "Not a Shopify object - use customer"),
   ("session", "Not available in Shopify Liquid")]

/-- Capture of `([a-zA-Z_]\w*)` at the head, with its length. -/
def captureIdent (s : Chars) : Option (Chars × Nat) :=
  match s with
  | c :: _ =>
    if isIdentStart c then
      let idf := s.takeWhile isWordChar
      some (idf, idf.length)
    else none
  | [] => none

/-- Object pattern `\x7b\x7b[\s]*([a-zA-Z_]\w*)\.`. -/
def matchOutputObjectHead (s : Chars) : Option (Nat × String) := do
  let s1 ← afterLiteral "\x7b\x7b" s
  let s2 := wsStar s1
  let (idf, n) ← captureIdent s2
  let s3 := s2.drop n
  let s4 ← afterLiteral "." s3
  pure (s.length - s4.length, String.mk idf)

/-- Object pattern `\x7b%\s*for\s+\w+\s+in\s+([a-zA-Z_]\w*)`. -/
def matchForObjectHead (s : Chars) : Option (Nat × String) := do
  let s1 ← afterLiteral "\x7b%" s
  let s2 := wsStar s1
  let s3 ← afterLiteral "for" s2
  let s4 ← wsPlus s3
  let s5 ← wordPlus s4
  let s6 ← wsPlus s5
  let s7 ← afterLiteral "in" s6
  let s8 ← wsPlus s7
  let (idf, n) ← captureIdent s8
  pure (s.length - s8.length + n, String.mk idf)

/-- Object pattern `\x7b%\s*assign\s+\w+\s*=\s*([a-zA-Z_]\w*)\.`. -/
def matchAssignObjectHead (s : Chars) : Option (Nat × String) := do
  let s1 ← afterLiteral "\x7b%" s
  let s2 := wsStar s1
  let s3 ← afterLiteral "assign" s2
  let s4 ← wsPlus s3
  let s5 ← wordPlus s4
  let s6 := wsStar s5
  let s7 ← afterLiteral "=" s6
  let s8 := wsStar s7
  let (idf, n) ← captureIdent s8
  let s9 := s8.drop n
  let s10 ← afterLiteral "." s9
  pure (s.length - s10.length, String.mk idf)

/-- Object pattern `\x7b%\s*if\s+([a-zA-Z_]\w*)\.` (and its `unless` twin). -/
def matchCondObjectHead (kw : String) (s : Chars) : Option (Nat × String) := do
  let s1 ← afterLiteral "\x7b%" s
  let s2 := wsStar s1
  let s3 ← afterLiteral kw s2
  let s4 ← wsPlus s3
  let (idf, n) ← captureIdent s4
  let s5 := s4.drop n
  let s6 ← afterLiteral "." s5
  pure (s.length - s6.length, String.mk idf)

/-- `validate_shopify_objects` of ultimate-validator.py (lines 1570-1595):
the five object patterns are scanned in order; every captured head
identifier in the suspicious-objects table yields an Error. -/
def validate_shopify_objects (content : String) : List VIssue :=
  let s := content.toList
  let fi := fun (m : Chars → Option (Nat × String)) => finditerP m (s.length + 1) s 0
  let pass := fun (ms : List (Nat × String)) =>
    ms.filterMap fun m =>
      match SUSPICIOUS_OBJECTS.lookup m.2 with
      | some sugg =>
        some (⟨"fake_object", Sev.error, lineNumber s m.1,
          "SUSPICIOUS OBJECT: " ++ m.2 ++ " may not exist in Shopify", sugg⟩ : VIssue)
      | none => none
  pass (fi matchOutputObjectHead) ++
  pass (fi matchForObjectHead) ++
  pass (fi matchAssignObjectHead) ++
  pass (fi (matchCondObjectHead "if")) ++
  pass (fi (matchCondObjectHead "unless"))

/-! ## Unescaped-output scanner (character-encoding-validator.py,
`_validate_unescaped_output` and its context helpers).  The helpers that
the source runs with `re.IGNORECASE` are evaluated on a lower-cased copy
of the content, which has the same character positions. -/

/-- `finditer(r'\x7b\x7b\s*([^\x7d]+)\s*\x7d\x7d', content)`: matches as
`(match-start, raw region)` pairs, where the raw region runs from after
`\x7b\x7b` to the first `\x7d` (which must be followed by a second
`\x7d`); the caller strips it, matching `match.group(1).strip()`. -/
def extractOutputs (fuel : Nat) (s : Chars) (pos : Nat) : List (Nat × Chars) :=
  match fuel, s with
  | 0, _ => []
  | _, [] => []
  | fuel + 1, '\x7b' :: '\x7b' :: rest =>
    let region := rest.takeWhile (fun c => c != '\x7d')
    match rest.drop region.length with
    | '\x7d' :: '\x7d' :: rest2 =>
      if region.isEmpty then extractOutputs fuel ('\x7b' :: rest) (pos + 1)
      else (pos, region) :: extractOutputs fuel rest2 (pos + region.length + 4)
    | _ => extractOutputs fuel ('\x7b' :: rest) (pos + 1)
  | fuel + 1, _ :: rest => extractOutputs fuel rest (pos + 1)

/-- `content[max(0, position - n):position]` - the lookback window. -/
def lookbackWin (s : Chars) (p n : Nat) : Chars := (s.take p).drop (p - n)

/-- `content[position:position + n]` - the lookahead window. -/
def lookaheadWin (s : Chars) (p n : Nat) : Chars := (s.drop p).take n

/-- Fragment `attr\s*=\s*["\']` of the attribute-context patterns. -/
def matchAttrOpen (attr : String) (s : Chars) : Option Chars := do
  let s1 ← afterLiteral attr s
  let s2 := wsStar s1
  let s3 ← afterLiteral "=" s2
  matchQuote (wsStar s3)

/-- `re.search(attr + r'\s*=\s*["\'][^"\']*$', lookback)`: the attribute
opens somewhere in the window and its quote is still unclosed at the end
of the window. -/
def attrOpenPending (attr : String) (lb : Chars) : Bool :=
  (List.range (lb.length + 1)).any fun i =>
    match matchAttrOpen attr (lb.drop i) with
    | some rest => rest.all (fun c => c != '"' && c != '\x27')
    | none => false

/-- `re.match(r'^[^"\'<>]*["\']', lookahead)`: the pending attribute value
closes before any tag delimiter. -/
def closesAttr (la : Chars) : Bool :=
  let gap := la.takeWhile (fun c => c != '"' && c != '\x27' && c != '<' && c != '>')
  match la.drop gap.length with
  | '"' :: _ => true
  | '\x27' :: _ => true
  | _ => false

/-- Pattern `<style[^>]*>(.*?)</style>` (DOTALL): length of a match at the
head of the (lower-cased) suffix. -/
def matchStyleBlock (s : Chars) : Option Nat := do
  let s1 ← afterLiteral "<style" s
  let gap := s1.takeWhile (fun c => c != '>')
  match s1.drop gap.length with
  | '>' :: s3 => do
    let j ← findSeq s3 "</style>".toList
    pure (s.length - s3.length + j + 8)
  | _ => none

/-- Lazy block pattern `open(.*?)close` for a pair of simple markers, as
used for `\x7b%\s*style\s*%\x7d...\x7b%\s*endstyle\s*%\x7d` and the
schema-context pattern. -/
def matchMarkerBlock (openW closeW : Chars) (s : Chars) : Option Nat := do
  let k ← matchSimpleMarker openW s
  let jm ← findMarkerG (matchSimpleMarker closeW) ((s.drop k).length + 1) (s.drop k) 0
  pure (k + jm.1 + jm.2)

/-- The `(start, end)` spans of all matches of a matcher (`match.end()` is
the exclusive end offset, but the source compares with `<=` on both
sides). -/
def matchSpans (m : Chars → Option Nat) (s : Chars) : List (Nat × Nat) :=
  (finditerG m (s.length + 1) s 0).map (fun r => (r.1, r.1 + r.2))

/-- Is the position inside one of the spans (`start <= position <= end`)? -/
def inAnySpan (spans : List (Nat × Nat)) (p : Nat) : Bool :=
  spans.any (fun r => r.1 ≤ p && p ≤ r.2)

/-- `_is_in_style_attribute` (character-encoding-validator.py lines
431-446): a `style=` attribute opens within 500 characters back and its
value closes within 200 characters ahead. -/
def isInStyleAttribute (low : Chars) (p : Nat) : Bool :=
  attrOpenPending "style" (lookbackWin low p 500) && closesAttr (lookaheadWin low p 200)

/-- `_is_in_style_block` (lines 407-429): inside a `<style>` element, a
`\x7b% style %\x7d` block, or a `style=` attribute. -/
def isInStyleBlock (low : Chars) (p : Nat) : Bool :=
  inAnySpan (matchSpans matchStyleBlock low) p ||
  inAnySpan (matchSpans (matchMarkerBlock "style".toList "endstyle".toList) low) p ||
  isInStyleAttribute low p

/-- `_is_in_schema_context` (lines 448-458). -/
def isInSchemaContext (low : Chars) (p : Nat) : Bool :=
  inAnySpan (matchSpans (matchMarkerBlock "schema".toList "endschema".toList) low) p

/-- The URL attributes of `_is_in_url_attribute` (lines 468-476). -/
def urlAttrNames : List String :=
  ["href", "src", "action", "formaction", "data-url", "data-href", "data-src"]

/-- `_is_in_url_attribute` (lines 460-487): a URL-bearing attribute opens
within 200 characters back and its value closes within 100 ahead. -/
def isInUrlAttribute (low : Chars) (p : Nat) : Bool :=
  (urlAttrNames.any (fun a => attrOpenPending a (lookbackWin low p 200))) &&
    closesAttr (lookaheadWin low p 100)

/-- The text attributes of `_is_in_attribute_text_context` (lines 495-506). -/
def textAttrNames : List String :=
  ["aria-label", "aria-describedby", "aria-description", "title", "alt",
   "placeholder", "value", "data-title", "data-text", "data-content"]

/-- `_is_in_attribute_text_context` (lines 489-512): no lookahead check. -/
def isInAttrTextContext (low : Chars) (p : Nat) : Bool :=
  textAttrNames.any (fun a => attrOpenPending a (lookbackWin low p 200))

/-- `_is_in_class_attribute` (lines 514-529). -/
def isInClassAttribute (low : Chars) (p : Nat) : Bool :=
  attrOpenPending "class" (lookbackWin low p 200) && closesAttr (lookaheadWin low p 100)

/-- The URL-generating filter fragments of `_validate_unescaped_output`
lines 298-304. -/
def urlFilterFragments : List String :=
  ["| image_url:", "|image_url:", "| asset_url", "|asset_url",
   "| file_url", "|file_url", "| url_for_", "|url_for_",
   "| link_to_", "|link_to_"]

/-- `has_url_filter`: the expression carries a URL-generating filter. -/
def hasUrlFilter (expr : Chars) : Bool :=
  urlFilterFragments.any (fun f => containsSeq expr f.toList)

/-- `is_user_content` (lines 307-312): the expression's text matches
`(?:settings|customer|form|article|product|collection|page)\.` or
`block\.settings\.` (case-sensitive `re.search`). -/
def isUserContent (expr : Chars) : Bool :=
  (["settings.", "customer.", "form.", "article.", "product.",
    "collection.", "page."].any (fun f => containsSeq expr f.toList)) ||
  containsSeq expr "block.settings.".toList

/-- The safe-filter flags of lines 316-324 (`has_escape` through
`has_date`), combined: note that `|t` and `| t` match any filter whose
name merely starts with `t` - a quirk of the substring checks that is
preserved here. -/
def hasSafeOutputFilter (expr : Chars) : Bool :=
  ["| escape", "|escape", "| strip_html", "|strip_html", "| strip", "|strip",
   "| json", "|json", "| t", "|t", "| money", "|money",
   "| link_to:", "|link_to:", "| date:", "|date:"].any
    (fun f => containsSeq expr f.toList)

/-- `expression.split('|')[0].strip()` - the base expression before the
first filter. -/
def baseExpression (expr : Chars) : Chars :=
  pyStrip (expr.takeWhile (fun c => c != '|'))

/-- Fragment `^\d+\s*\|` of `_is_numeric_calculation`. -/
def startsNumPipe (s : Chars) : Bool :=
  let d := s.takeWhile Char.isDigit
  if d.isEmpty then false
  else
    match (s.drop d.length).dropWhile isWs with
    | '|' :: _ => true
    | _ => false

/-- `_is_numeric_calculation` (lines 609-622), on the full expression,
case-insensitively. -/
def isNumericCalculation (expr : Chars) : Bool :=
  let le := expr.map Char.toLower
  (["divided_by", "times", "plus", "minus"].any (fun w => containsSeq le w.toList)) ||
  (["round", "floor", "ceil", "abs"].any (fun w => containsSeq le w.toList)) ||
  startsNumPipe expr

/-- The richtext suffixes of `_is_richtext_content` (lines 626-643); the
`$`-anchored patterns are suffix tests. -/
def richtextSuffixes : List String :=
  ["content", "description", "body", "text", "_content", "_description",
   "_body", "_text", "rte", "_rte", "richtext", "_richtext",
   "body_richtext", "readmore_content", "answer", "_answer"]

/-- `_is_richtext_content` (lines 624-652), case-insensitive on the base
expression. -/
def isRichtextContent (base : Chars) : Bool :=
  let lb := base.map Char.toLower
  richtextSuffixes.any (fun w => List.isSuffixOf w.toList lb)

/-- The `safe_patterns` alternation words of `_is_safe_value` (lines
545-580), flattened in source order. -/
def safeValueWords : List String :=
  ["padding", "margin", "width", "height", "size", "spacing", "gap",
   "radius", "opacity", "weight", "line_height", "letter_spacing",
   "columns", "rows", "order", "flex", "grid",
   "top", "bottom", "left", "right", "offset",
   "delay", "duration", "speed",
   "max_width", "min_width", "max_height", "min_height",
   "font_size", "border_width", "border_radius",
   "products_count", "variants_count", "reviews_count", "comments_count",
   "quantity", "stock", "inventory", "available",
   "id", "product_id", "variant_id", "collection_id",
   "price", "compare_at_price", "unit_price",
   "color", "background", "bg_color", "border_color", "shadow_color",
   "overlay_color", "hover_color", "accent_color", "text_color",
   "alignment", "align", "justify", "position", "display",
   "text_align", "vertical_align",
   "layout_direction", "direction",
   "heading_tag", "tag", "element_tag",
   "font_family", "font_style", "font_weight", "font_variant", "font",
   "transform", "transition", "animation",
   "z_index", "aspect_ratio", "object_fit",
   "enable_", "show_", "hide_", "is_"]

/-- The `| default:` fallback test of `_is_safe_value` (lines 596-601):
`re.match(r"^['\"]?(?:\d+|transparent|none|auto|inherit|initial|unset)['\"]?", ...)`. -/
def defaultPartSafe (dp : Chars) : Bool :=
  let dp1 := match dp with
    | '"' :: r => r
    | '\x27' :: r => r
    | _ => dp
  (match dp1 with
   | c :: _ => c.isDigit
   | [] => false) ||
  ["transparent", "none", "auto", "inherit", "initial", "unset"].any
    (fun w => List.isPrefixOf w.toList dp1)

/-- `expression.split('| default:')[1].strip()`: the segment after the
first `| default:`, up to the next one. -/
def defaultPart (expr : Chars) : Chars :=
  match findSeq expr "| default:".toList with
  | some i =>
    let after := expr.drop (i + 10)
    pyStrip (match findSeq after "| default:".toList with
      | some j => after.take j
      | none => after)
  | none => []

/-- `_is_safe_value` (lines 531-603). -/
def isSafeValue (expr : Chars) : Bool :=
  let base := baseExpression expr
  let lowBase := base.map Char.toLower
  if isNumericCalculation expr then true
  else if isRichtextContent base then true
  else if safeValueWords.any (fun w => containsSeq lowBase w.toList) then true
  else if (["| font_face", "|font_face", "| font_family", "|font_family",
            "| font_url", "|font_url"].any (fun f => containsSeq expr f.toList)) then true
  else if containsSeq base ".font".toList || containsSeq base "_font.".toList then true
  else if containsSeq expr "| default:".toList then defaultPartSafe (defaultPart expr)
  else false

/-- `_is_safe_css_value` (lines 605-607) - an alias of `_is_safe_value`. -/
def isSafeCssValue (expr : Chars) : Bool := isSafeValue expr

/-- `_is_css_text_content` (lines 675-689). -/
def isCssTextContent (expr : Chars) : Bool :=
  let lb := (baseExpression expr).map Char.toLower
  ["content", "label", "title", "description", "text", "message", "caption",
   "heading", "subheading", "paragraph", "name"].any
    (fun w => containsSeq lb w.toList)

/-- `_is_safe_html_class_value` (lines 654-673). -/
def isSafeHtmlClassValue (expr : Chars) : Bool :=
  let lb := (baseExpression expr).map Char.toLower
  ["layout_direction", "direction", "orientation",
   "style", "variant", "theme", "design",
   "alignment", "align", "position",
   "size", "scale", "magnitude",
   "state", "status", "mode"].any (fun w => containsSeq lb w.toList)

/-- `_validate_unescaped_output` of character-encoding-validator.py (lines
276-405): the context cascade applied to every Liquid output expression
whose root is user-controllable.  URL attributes override (unless the
position also sits in a text attribute), then URL-generating filters,
then the schema context, then the style context with its CSS heuristics,
then the plain-HTML branch with the class-value and safe-value
heuristics. -/
def validate_unescaped_output (content : String) : List VIssue :=
  let ct := content.toList
  let low := ct.map Char.toLower
  (extractOutputs (ct.length + 1) ct 0).flatMap fun m =>
    let p := m.1
    let expr := pyStrip m.2
    if isUserContent expr then
      if isInUrlAttribute low p then
        if isInAttrTextContext low p then
          if !hasSafeOutputFilter expr then
            [⟨"unescaped_attribute_text", Sev.error, lineNumber ct p,
              "Text content in HTML attribute without escape filter",
              "Add | escape filter for text in attributes"⟩]
          else []
        else []
      else if hasUrlFilter expr then []
      else if isInSchemaContext low p then []
      else if isInStyleBlock low p then
        if isSafeCssValue expr then []
        else if !hasSafeOutputFilter expr && isCssTextContent expr then
          [⟨"unescaped_css_text_content", Sev.error, lineNumber ct p,
            "Text content in CSS without escape filter",
            "Add | escape filter for text content in CSS"⟩]
        else []
      else
        if isInClassAttribute low p && isSafeHtmlClassValue expr then []
        else if isSafeValue expr then []
        else if !hasSafeOutputFilter expr then
          [⟨(if containsSeq expr "block.settings".toList then "unescaped_block_setting"
             else "unescaped_user_content"), Sev.error, lineNumber ct p,
            "User-controllable content without escape filter",
            "Add | escape filter to prevent XSS and encoding issues"⟩]
        else []
    else []

/-! ## Strict JSON parsing (the behaviour of `json.loads` on schema
blocks).  `json.loads` is Python standard library, external to the
repository; this parser models its accept/reject behaviour on standard
JSON (NaN/Infinity literals and lone surrogates are outside the modelled
domain). -/

/-- JSON whitespace. -/
def isJsonWs (c : Char) : Bool :=
  c == ' ' || c == '\t' || c == '\n' || c == '\r'

/-- Hexadecimal digit value. -/
def hexVal (c : Char) : Option Nat :=
  if c.isDigit then some (c.toNat - 48)
  else if 'a' ≤ c && c ≤ 'f' then some (c.toNat - 87)
  else if 'A' ≤ c && c ≤ 'F' then some (c.toNat - 55)
  else none

/-- JSON string body after the opening quote, with escape handling; raw
control characters are rejected (strict mode). -/
def parseStringLit : Nat → Chars → Chars → Option (String × Chars)
  | 0, _, _ => none
  | _, [], _ => none
  | fuel + 1, c :: rest, acc =>
    if c == '"' then some (String.mk acc.reverse, rest)
    else if c == '\\' then
      match rest with
      | '"' :: r => parseStringLit fuel r ('"' :: acc)
      | '\\' :: r => parseStringLit fuel r ('\\' :: acc)
      | '/' :: r => parseStringLit fuel r ('/' :: acc)
      | 'b' :: r => parseStringLit fuel r ('\x08' :: acc)
      | 'f' :: r => parseStringLit fuel r ('\x0c' :: acc)
      | 'n' :: r => parseStringLit fuel r ('\n' :: acc)
      | 'r' :: r => parseStringLit fuel r ('\r' :: acc)
      | 't' :: r => parseStringLit fuel r ('\t' :: acc)
      | 'u' :: h1 :: h2 :: h3 :: h4 :: r =>
        match hexVal h1, hexVal h2, hexVal h3, hexVal h4 with
        | some a, some b, some d, some e =>
          parseStringLit fuel r (Char.ofNat (((a * 16 + b) * 16 + d) * 16 + e) :: acc)
        | _, _, _, _ => none
      | _ => none
    else if c.toNat < 32 then none
    else parseStringLit fuel rest (c :: acc)

/-- Decimal digit run as a natural number. -/
def digitsToNat (ds : Chars) : Nat :=
  ds.foldl (fun n c => n * 10 + (c.toNat - 48)) 0

/-- JSON number: optional sign, integer part without leading zeros,
optional fraction and exponent; the exact rational value. -/
def parseNumber (s : Chars) : Option (ℚ × Chars) :=
  let signed := match s with
    | '-' :: r => (true, r)
    | _ => (false, s)
  let s1 := signed.2
  let intDigits := s1.takeWhile Char.isDigit
  if intDigits.isEmpty then none
  else if 1 < intDigits.length && intDigits.headI = '0' then none
  else
    let s2 := s1.drop intDigits.length
    let fracPart := match s2 with
      | '.' :: r =>
        let fd := r.takeWhile Char.isDigit
        if fd.isEmpty then none else some (fd, r.drop fd.length)
      | _ => some ([], s2)
    match fracPart with
    | none => none
    | some (fd, s3) =>
      let expPart := match s3 with
        | 'e' :: r => some r
        | 'E' :: r => some r
        | _ => none
      let expParsed : Option (ℤ × Chars) := match expPart with
        | some r =>
          let es := match r with
            | '+' :: r2 => (1, r2)
            | '-' :: r2 => (-1, r2)
            | _ => ((1 : ℤ), r)
          let ed := es.2.takeWhile Char.isDigit
          if ed.isEmpty then none
          else some (es.1 * (digitsToNat ed : ℤ), es.2.drop ed.length)
        | none => some (0, s3)
      match expParsed with
      | none => none
      | some (e, s4) =>
        let mantissa : ℚ :=
          (digitsToNat intDigits : ℚ) + (digitsToNat fd : ℚ) / ((10 : ℚ) ^ fd.length)
        let v := mantissa * (10 : ℚ) ^ e
        some (if signed.1 then -v else v, s4)

mutual

/-- One JSON value and the remaining input. -/
def parseValue : Nat → Chars → Option (Json × Chars)
  | 0, _ => none
  | fuel + 1, s =>
    let s := s.dropWhile isJsonWs
    match s with
    | [] => none
    | '"' :: r => (parseStringLit fuel r []).map (fun p => (Json.jstr p.1, p.2))
    | '\x7b' :: r =>
      let r1 := r.dropWhile isJsonWs
      match r1 with
      | '\x7d' :: r2 => some (Json.jobj [], r2)
      | _ => parseObjItems fuel r1 []
    | '[' :: r =>
      let r1 := r.dropWhile isJsonWs
      match r1 with
      | ']' :: r2 => some (Json.jarr [], r2)
      | _ => parseArrItems fuel r1 []
    | 't' :: _ => (afterLiteral "true" s).map (fun r => (Json.jbool true, r))
    | 'f' :: _ => (afterLiteral "false" s).map (fun r => (Json.jbool false, r))
    | 'n' :: _ => (afterLiteral "null" s).map (fun r => (Json.null, r))
    | _ => (parseNumber s).map (fun p => (Json.jnum p.1, p.2))

/-- Array members after the opening bracket (at least one). -/
def parseArrItems : Nat → Chars → List Json → Option (Json × Chars)
  | 0, _, _ => none
  | fuel + 1, s, acc =>
    match parseValue fuel s with
    | none => none
    | some (v, rest) =>
      match rest.dropWhile isJsonWs with
      | ',' :: r2 => parseArrItems fuel r2 (v :: acc)
      | ']' :: r2 => some (Json.jarr (v :: acc).reverse, r2)
      | _ => none

/-- Object members after the opening brace (at least one). -/
def parseObjItems : Nat → Chars → List (String × Json) → Option (Json × Chars)
  | 0, _, _ => none
  | fuel + 1, s, acc =>
    match s.dropWhile isJsonWs with
    | '"' :: r =>
      match parseStringLit fuel r [] with
      | some (k, r1) =>
        match r1.dropWhile isJsonWs with
        | ':' :: r2 =>
          match parseValue fuel r2 with
          | some (v, r3) =>
            match r3.dropWhile isJsonWs with
            | ',' :: r4 => parseObjItems fuel r4 ((k, v) :: acc)
            | '\x7d' :: r4 => some (Json.jobj ((k, v) :: acc).reverse, r4)
            | _ => none
          | none => none
        | _ => none
      | none => none
    | _ => none

end

/-- `json.loads`: one JSON document with nothing but whitespace after it. -/
def parseJson (s : String) : Option Json :=
  match parseValue (3 * s.length + 3) s.toList with
  | some (v, rest) => if (rest.dropWhile isJsonWs).isEmpty then some v else none
  | none => none

/-! ## File typing (ultimate-validator.py, `detect_file_type`,
`is_legacy_template`, `should_have_schema`) -/

/-- `Path(file_path).name`. -/
def pathName (p : String) : String :=
  String.mk ((p.toList.reverse.takeWhile (fun c => c != '/')).reverse)

/-- `Path(file_path).suffix` (a leading dot of a hidden file does not
count as an extension separator). -/
def pathSuffix (p : String) : String :=
  let cs := (pathName p).toList
  let revTail := cs.reverse.takeWhile (fun c => c != '.')
  if revTail.length == cs.length then ""
  else if revTail.length + 1 == cs.length then ""
  else String.mk ('.' :: revTail.reverse)

/-- `WRAPPER_SECTIONS` of ultimate-validator.py line 152. -/
def WRAPPER_SECTIONS : List String := ["apps.liquid", "_blocks.liquid"]

/-- `SCHEMA_REQUIRED_TYPES` (line 155). -/
def SCHEMA_REQUIRED_TYPES : List String := ["section", "theme_block", "wrapper_section"]

/-- `SCHEMA_FORBIDDEN_TYPES` (line 158). -/
def SCHEMA_FORBIDDEN_TYPES : List String :=
  ["layout", "template_liquid", "template_json", "snippet", "asset", "config", "locale"]

/-- `FILE_TYPE_PATTERNS` (lines 139-149): each regex
`^dir/.*\.ext$` is a directory-prefix plus extension test. -/
def FILE_TYPE_PATTERNS : List (String × List String × String) :=
  [("layout/", [".liquid"], "layout"),
   ("templates/", [".liquid"], "template_liquid"),
   ("templates/", [".json"], "template_json"),
   ("sections/", [".liquid"], "section"),
   ("blocks/", [".liquid"], "theme_block"),
   ("snippets/", [".liquid"], "snippet"),
   ("assets/", [".css", ".js", ".png", ".jpg", ".jpeg", ".gif", ".svg",
     ".webp", ".woff", ".woff2", ".ttf", ".otf", ".eot"], "asset"),
   ("config/", [".json"], "config"),
   ("locales/", [".json"], "locale")]

/-- The `theme_dirs` normalisation loop of `detect_file_type` (lines
436-447): the path from the first theme directory onwards. -/
def relativeThemePath (p : String) : String :=
  let dirs := ["layout", "templates", "sections", "blocks", "snippets",
               "assets", "config", "locales"]
  let cs := p.toList
  match dirs.findSome? (fun d =>
    match findSeq cs ("/" ++ d ++ "/").toList with
    | some i => some (String.mk (cs.drop (i + 1)))
    | none =>
      if List.isSuffixOf ("/" ++ d).toList cs then some d else none) with
  | some r => r
  | none => p

/-- `detect_file_type` of ultimate-validator.py (lines 427-460); the
`content` argument of the source is never read there and is omitted. -/
def detect_file_type (path : String) : String :=
  if pathName path ∈ WRAPPER_SECTIONS then "wrapper_section"
  else
    let rel := (relativeThemePath path).toList
    match FILE_TYPE_PATTERNS.findSome? (fun r =>
      if List.isPrefixOf r.1.toList rel &&
          r.2.1.any (fun e => List.isSuffixOf e.toList rel) then some r.2.2
      else none) with
    | some t => t
    | none => "unknown"

/-- Containment of a matcher somewhere in the content (`re.search`). -/
def existsMatch (m : Chars → Option Nat) (s : Chars) : Bool :=
  (List.range (s.length + 1)).any (fun i => (m (s.drop i)).isSome)

/-- Fragment `lit\s+`: a literal followed by at least one whitespace. -/
def matchKwWs (lit : String) (s : Chars) : Option Nat := do
  let s1 ← afterLiteral lit s
  let s2 ← wsPlus s1
  pure (s.length - s2.length)

/-- `is_legacy_template` of ultimate-validator.py (lines 462-485). -/
def is_legacy_template (path content : String) : Bool :=
  if pathSuffix path != ".liquid" then false
  else if containsSeq content.toList "\x7b% schema %\x7d".toList then false
  else
    let cs := content.toList
    existsMatch (matchKwWs "\x7b% layout") cs ||
    containsSeq cs "\x7b\x7b content_for_layout \x7d\x7d".toList ||
    existsMatch (matchKwWs "\x7b% paginate") cs ||
    containsSeq cs "\x7b\x7b collection.products \x7d\x7d".toList ||
    containsSeq cs "\x7b\x7b product. \x7d\x7d".toList ||
    containsSeq cs "\x7b\x7b blog.articles \x7d\x7d".toList

/-- `should_have_schema` of ultimate-validator.py (lines 487-499). -/
def should_have_schema (fileType path content : String) : Bool :=
  if fileType ∈ SCHEMA_REQUIRED_TYPES then true
  else if fileType ∈ SCHEMA_FORBIDDEN_TYPES then false
  else if fileType == "unknown" then !is_legacy_template path content
  else false

/-! ## Schema integrity (ultimate-validator.py, `validate_schema_integrity`
and its sub-checks) -/

/-- `re.search(r'\x7b% schema %\x7d(.*?)\x7b% endschema %\x7d', content,
re.DOTALL)`: the inner text of the first schema block (note the literal
single-space markers). -/
def extractSchemaInner (content : String) : Option Chars :=
  let cs := content.toList
  match findSeq cs "\x7b% schema %\x7d".toList with
  | some i =>
    let after := cs.drop (i + 12)
    match findSeq after "\x7b% endschema %\x7d".toList with
    | some j => some (after.take j)
    | none => none
  | none => none

/-- `file_type.replace('_', ' ').title()`. -/
def titleCaseType (t : String) : String :=
  String.intercalate " " ((t.splitOn "_").map (fun w => w.capitalize))

/-- Rational field access with a default (`setting.get('min', 0)` etc.);
a present value of a non-numeric JSON type would raise a `TypeError` in
the Python arithmetic and is outside the modelled domain. -/
def getNumD (j : Json) (k : String) (d : ℚ) : ℚ :=
  match jget j k with
  | some (Json.jnum q) => q
  | _ => d

/-- `validate_app_blocks` (ultimate-validator.py lines 501-530). -/
def validate_app_blocks (schema : Json) : List VIssue :=
  (getList schema "blocks").flatMap fun b =>
    if getStrOpt b "type" == some "@app" then
      (if hasKey b "limit" then
        [⟨"app_block_limit", Sev.critical, 0,
          "@app blocks cannot have limit parameter",
          "Remove limit parameter from @app block - app blocks are managed by app developers"⟩]
       else []) ++
      (if jtruthy (jget b "settings") then
        [⟨"app_block_settings", Sev.warning, 0,
          "@app blocks should not define settings",
          "App blocks receive settings from the app - remove settings array"⟩]
       else [])
    else []

/-- `validate_wrapper_section` (ultimate-validator.py lines 532-581). -/
def validate_wrapper_section (schema : Json) (filename : String) : List VIssue :=
  let blockTypes := (getList schema "blocks").map (fun b => getStrOpt b "type")
  let requiredTypes :=
    if filename == "apps.liquid" then some ["@app"]
    else if filename == "_blocks.liquid" then some ["@app", "@theme"]
    else none
  match requiredTypes with
  | none => []
  | some reqs =>
    (reqs.filterMap fun rt =>
      if some rt ∈ blockTypes then none
      else some (⟨"wrapper_missing_block_type", Sev.critical, 0,
        filename ++ " must include " ++ rt ++ " block type",
        "Add block with type: " ++ rt ++ " to support " ++ rt ++ " functionality"⟩ : VIssue)) ++
    (if jtruthy (jget schema "presets") then []
     else [⟨"wrapper_missing_presets", Sev.critical, 0,
       filename ++ " must define presets",
       "Add presets array to enable section in theme editor"⟩]) ++
    (if hasKey schema "templates" then
      [⟨"wrapper_invalid_templates", Sev.critical, 0,
        filename ++ " cannot define templates attribute",
        "Remove templates - wrapper sections are available globally"⟩]
     else [])

/-- The nesting tag kinds of `validate_block_nesting_depth` (lines
596-617), in pattern-table order. -/
def nestKinds : List String :=
  ["for", "if", "unless", "case", "capture", "tablerow", "paginate", "content_for"]

/-- Opening pattern `\x7b%\s*kw\s+` of the nesting-depth walker. -/
def matchNestOpen (kw : String) (s : Chars) : Option Nat := do
  let s1 ← afterLiteral "\x7b%" s
  let s2 := wsStar s1
  let s3 ← afterLiteral kw s2
  let s4 ← wsPlus s3
  pure (s.length - s4.length)

/-- One line of the nesting-depth walk: all matching opening kinds push
(in table order), then all matching closing kinds pop when they equal the
stack top.  The line is stripped and, since the searches run with
`re.IGNORECASE`, lower-cased. -/
def nestingLineStep (st : List String × Nat) (line : String) : List String × Nat :=
  let low := (pyStrip line.toList).map Char.toLower
  let pushed := nestKinds.filter (fun kw => existsMatch (matchNestOpen kw) low)
  let stack1 := pushed.foldl (fun s kw => kw :: s) st.1
  let maxN := max st.2 stack1.length
  let stack2 := nestKinds.foldl
    (fun s kw =>
      if existsMatch (matchSimpleMarker ("end" ++ kw).toList) low then
        match s with
        | t :: r => if t = kw then r else s
        | [] => s
      else s) stack1
  (stack2, maxN)

/-- `validate_block_nesting_depth` (ultimate-validator.py lines 583-640). -/
def validate_block_nesting_depth (content : String) : List VIssue :=
  let fin := ((splitLinesC (content.length + 1) content.toList).map String.mk).foldl
    nestingLineStep ([], 0)
  if 8 < fin.2 then
    [⟨"excessive_nesting", Sev.error, 0,
      "Block nesting depth exceeds Shopify limit of 8 levels",
      "Reduce nesting by extracting complex logic into snippets or simplifying conditional logic"⟩]
  else []

/-- String elements of an array-valued field. -/
def getStrList (j : Json) (k : String) : List String :=
  (getList j k).filterMap fun x =>
    match x with
    | Json.jstr s => some s
    | _ => none

/-- `valid_templates` of `validate_template_restrictions` (lines 674-679).
In the source the list is bound inside the `enabled_on` branch, so a
schema with only `disabled_on` raises a `NameError`; the evident intent -
the list in scope for both branches - is modelled. -/
def validTemplates : List String :=
  ["index", "product", "collection", "blog", "article", "page",
   "password", "gift_card", "customers/order", "customers/account",
   "customers/register", "customers/login", "customers/addresses",
   "cart", "search", "404"]

/-- `validate_template_restrictions` (ultimate-validator.py lines 665-731);
the conflict message drops the joined template names. -/
def validate_template_restrictions (schema : Json) (fileType : String) : List VIssue :=
  let enabledOn := jget schema "enabled_on"
  let disabledOn := jget schema "disabled_on"
  let badNames := fun (j : Option Json) (ctx : String) =>
    match j with
    | some o =>
      (getStrList o "templates").filterMap fun t =>
        if t ∈ validTemplates || List.isPrefixOf "customers/".toList t.toList then none
        else some (⟨"invalid_template_name", Sev.error, 0,
          "Invalid template name " ++ t ++ " in " ++ ctx,
          "Use valid template names"⟩ : VIssue)
    | none => []
  (if jtruthy enabledOn then badNames enabledOn "enabled_on" else []) ++
  (if jtruthy disabledOn then badNames disabledOn "disabled_on" else []) ++
  (if jtruthy enabledOn && jtruthy disabledOn then
    let e := (enabledOn.getD Json.null)
    let d := (disabledOn.getD Json.null)
    if (getStrList e "templates").any (fun t => t ∈ getStrList d "templates") then
      [⟨"conflicting_template_restrictions", Sev.error, 0,
        "Templates cannot be both enabled and disabled",
        "Remove conflicting templates from either enabled_on or disabled_on"⟩]
    else []
   else []) ++
  (if fileType == "section" && (jtruthy enabledOn || jtruthy disabledOn) then
    [⟨"section_template_restriction", Sev.warning, 0,
      "Regular sections should not use enabled_on/disabled_on",
      "Template restrictions are primarily for app blocks - consider if this is needed"⟩]
   else [])

/-- Capture of `prefix\.settings\.([a-zA-Z_][a-zA-Z0-9_]*)`. -/
def matchSettingsUse (prefixLit : String) (s : Chars) : Option (Nat × String) := do
  let s1 ← afterLiteral prefixLit s
  let (idf, n) ← captureIdent s1
  pure (s.length - s1.length + n, String.mk idf)

/-- The `used_settings` set of `validate_schema_integrity` (lines
1736-1745): identifiers after `section.settings.` or `block.settings.`. -/
def usedSettingNames (content : String) : List String :=
  let s := content.toList
  ((finditerP (matchSettingsUse "section.settings.") (s.length + 1) s 0).map Prod.snd ++
   (finditerP (matchSettingsUse "block.settings.") (s.length + 1) s 0).map Prod.snd).dedup

/-- The flattened defined-settings set of `validate_schema_integrity`
(lines 1724-1734): truthy ids of top-level and block-level settings. -/
def definedSettingNames (schema : Json) : List String :=
  idsOfSettingList (getList schema "settings") ++
    (getList schema "blocks").flatMap (fun b => idsOfSettingList (getList b "settings"))

/-- The undefined-setting issues of `validate_schema_integrity` (lines
1747-1758). -/
def undefinedSettingIssues (schema : Json) (content : String) : List VIssue :=
  ((usedSettingNames content).filter (fun s => s ∉ definedSettingNames schema)).map
    fun s =>
      ⟨"undefined_setting", Sev.error, findLineNumber content (".settings." ++ s),
        "Setting " ++ s ++ " used but not defined in schema",
        "Add setting to schema or check spelling"⟩

/-- The per-setting range check of `validate_schema_integrity`
(ultimate-validator.py lines 1760-1777): a `range` setting with defaults
`min=0, max=100, step=1` raises an Error iff `step > 0` and
`(max - min) / step > 101` (the formatted numeric suggestion string of
the source is not reproduced). -/
def rangeIssuesFor (setting : Json) : List VIssue :=
  if getStrOpt setting "type" == some "range" then
    let mn := getNumD setting "min" 0
    let mx := getNumD setting "max" 100
    let st := getNumD setting "step" 1
    if 0 < st then
      if 101 < (mx - mn) / st then
        [⟨"invalid_range", Sev.error, 0,
          "Range setting " ++ ((getStrOpt setting "id").getD "None") ++
            " violates (max-min)/step <= 101", ""⟩]
      else []
    else []
  else []

/-- The range-validation loop over `schema.get('settings', [])`. -/
def validateRangeSettings (schema : Json) : List VIssue :=
  (getList schema "settings").flatMap rangeIssuesFor

/-- `validate_schema_integrity` of ultimate-validator.py (lines
1664-1777): schema requirement by file type, strict JSON parse (a parse
failure yields exactly one Critical `invalid_schema` issue and skips every
schema-dependent sub-check), then the @app, wrapper, nesting, template
restriction, cross-reference and range sub-checks in source order. -/
def validate_schema_integrity (content path : String) : List VIssue :=
  let ftype := detect_file_type path
  let schemaInner := extractSchemaInner content
  let shouldHave := should_have_schema ftype path content
  match schemaInner with
  | none =>
    if shouldHave then
      [⟨"missing_schema", Sev.error, 0,
        titleCaseType ftype ++ " requires schema block", ""⟩]
    else []
  | some inner =>
    if !shouldHave then
      [⟨"unexpected_schema", Sev.warning, 0,
        titleCaseType ftype ++ " should not have schema block", ""⟩]
    else
      match parseJson (String.mk (pyStrip inner)) with
      | none =>
        [⟨"invalid_schema", Sev.critical, findLineNumber content "\x7b% schema %\x7d",
          "Invalid JSON in schema", ""⟩]
      | some schema =>
        validate_app_blocks schema ++
        (if ftype == "wrapper_section" then
          validate_wrapper_section schema (pathName path) else []) ++
        validate_block_nesting_depth content ++
        validate_template_restrictions schema ftype ++
        undefinedSettingIssues schema content ++
        validateRangeSettings schema

/-- The six content validations that `validate_file` runs first
(ultimate-validator.py lines 1793-1798), in source order.  The remaining
per-file checks (layout objects, hardcoded routes, deprecated filters,
parser-blocking scripts, asset sizes, missing assets, edge cases,
character encoding) append their issues independently afterwards;
`validate_deprecated_filters` and the encoding pass around
`validate_unescaped_output` are embedded separately above. -/
def validate_file_issues (content path : String) : List VIssue :=
  validate_liquid_filters content ++
  validate_shopify_objects content ++
  validate_complexity content ++
  validate_performance content ++
  validate_theme_store content ++
  validate_schema_integrity content path

/-- Number of tags that push onto the pairing stack. -/
def opensCount (ts : List LTag) : Nat := (ts.filter isOpenTag).length

/-- Number of tags that take the closing branch of the pairing machine. -/
def endsCount (ts : List LTag) : Nat := (ts.filter isEndTag).length

/-- A `range` setting literal as `json.loads` would produce it, for
stating the range-invariant claim. -/
def mkRangeSetting (id : String) (mn mx st : ℚ) : Json :=
  Json.jobj [("id", Json.jstr id), ("type", Json.jstr "range"),
    ("min", Json.jnum mn), ("max", Json.jnum mx), ("step", Json.jnum st)]

/-- The per-setting range check of scan-schema-integrity.py (lines
156-167), identical in condition to the one of ultimate-validator.py; the
error is a report string (the formatted numeric tail of the source
message is not reproduced). -/
def scanRangeErrorFor (setting : Json) : List String :=
  if getStrOpt setting "type" == some "range" then
    let mn := getNumD setting "min" 0
    let mx := getNumD setting "max" 100
    let st := getNumD setting "step" 1
    if 0 < st then
      if 101 < (mx - mn) / st then
        ["Range setting " ++ ((getStrOpt setting "id").getD "None") ++
          " violates validation"]
      else []
    else []
  else []

/-! # Theorems

Helper lemmas about the pairing stack machine, then the claim theorems
with their witnesses and counterexamples. -/

theorem runPairing_append (xs ys : List LTag) (i : List VIssue) (s : List LTag) :
    runPairing (xs ++ ys) i s =
      runPairing ys (runPairing xs i s).1 (runPairing xs i s).2 := by
  induction xs generalizing i s with
  | nil => simp [runPairing]
  | cons t ts ih =>
    simp only [List.cons_append, runPairing]
    by_cases h1 : isPaired t.name
    · simp [h1, ih]
    · simp only [h1, Bool.false_eq_true, if_false]
      by_cases h2 : startsWithEnd t.name
      · simp only [h2, if_true]
        cases s with
        | nil => simp [ih]
        | cons top rest =>
          by_cases h3 : top.name = expectedOpening t.name
          · simp [h3, ih]
          · simp [h3, ih]
      · simp [h2, ih]

theorem paired_not_end {n : Chars} (h : isPaired n = true) :
    startsWithEnd n = false := by
  have hm : n ∈ pairedNames := by simpa [isPaired] using h
  simp only [pairedNames] at hm
  fin_cases hm <;> decide

theorem end_not_paired {n : Chars} (h : startsWithEnd n = true) :
    isPaired n = false := by
  cases hp : isPaired n with
  | false => rfl
  | true => rw [paired_not_end hp] at h; exact Bool.noConfusion h

theorem startsWithEnd_endOf (n : Chars) : startsWithEnd (endOf n) = true := by
  have h : ("end".toList : Chars) = ['e', 'n', 'd'] := rfl
  simp [startsWithEnd, endOf, h, List.isPrefixOf]

theorem isPaired_endOf (n : Chars) : isPaired (endOf n) = false :=
  end_not_paired (startsWithEnd_endOf n)

theorem expectedOpening_endOf (n : Chars) : expectedOpening (endOf n) = n := rfl

theorem balanced_run {ts : List LTag} (h : Balanced ts) :
    ∀ i s, runPairing ts i s = (i, s) := by
  induction h with
  | nil => intro i s; rfl
  | pair t e inner outer hp he _ _ ihin ihout =>
    intro i s
    have he2 : startsWithEnd e.name = true := by rw [he]; exact startsWithEnd_endOf _
    have he3 : isPaired e.name = false := by rw [he]; exact isPaired_endOf _
    have he4 : t.name = expectedOpening e.name := by rw [he, expectedOpening_endOf]
    show runPairing (t :: (inner ++ e :: outer)) i s = (i, s)
    rw [show runPairing (t :: (inner ++ e :: outer)) i s =
        runPairing (inner ++ e :: outer) i (t :: s) by simp [runPairing, hp]]
    rw [runPairing_append, ihin i (t :: s)]
    simp only [runPairing, he3, Bool.false_eq_true, if_false, he2, if_true]
    rw [if_pos he4]
    exact ihout i s
  | skip t rest hp hne _ ih =>
    intro i s
    show runPairing (t :: rest) i s = (i, s)
    simp [runPairing, hp, hne, ih]

theorem opensCount_cons (t : LTag) (ts : List LTag) :
    opensCount (t :: ts) = (if isOpenTag t then 1 else 0) + opensCount ts := by
  by_cases h : isOpenTag t <;> simp [opensCount, List.filter_cons, h, Nat.add_comm]

theorem endsCount_cons (t : LTag) (ts : List LTag) :
    endsCount (t :: ts) = (if isEndTag t then 1 else 0) + endsCount ts := by
  by_cases h : isEndTag t <;> simp [endsCount, List.filter_cons, h, Nat.add_comm]

theorem opensCount_append (xs ys : List LTag) :
    opensCount (xs ++ ys) = opensCount xs + opensCount ys := by
  simp [opensCount, List.filter_append]

theorem endsCount_append (xs ys : List LTag) :
    endsCount (xs ++ ys) = endsCount xs + endsCount ys := by
  simp [endsCount, List.filter_append]

theorem runPairing_stack_bound (ts : List LTag) :
    ∀ i s, s.length + opensCount ts ≤ (runPairing ts i s).2.length + endsCount ts := by
  induction ts with
  | nil =>
    intro i s
    simp [runPairing, opensCount, endsCount]
  | cons t ts ih =>
    intro i s
    rw [opensCount_cons, endsCount_cons]
    by_cases h1 : isPaired t.name
    · have hop : isOpenTag t = true := h1
      have hend : isEndTag t = false := by simp [isEndTag, h1]
      have := ih i (t :: s)
      simp only [runPairing, h1, if_true, hop, hend] at *
      simp only [List.length_cons] at this
      omega
    · have hop : isOpenTag t = false := by simp [isOpenTag, h1]
      by_cases h2 : startsWithEnd t.name
      · have hend : isEndTag t = true := by simp [isEndTag, h1, h2]
        simp only [runPairing, h1, Bool.false_eq_true, if_false, h2, if_true,
          hop, hend]
        cases s with
        | nil =>
          have := ih (i ++ [mkUnmatchedEndIssue t]) []
          simp only [List.length_nil] at *
          omega
        | cons top rest =>
          by_cases h3 : top.name = expectedOpening t.name
          · have := ih i rest
            simp only [h3, if_true, List.length_cons]
            omega
          · have := ih (i ++ [mkMismatchedIssue top t]) (top :: rest)
            simp only [h3, if_false, List.length_cons] at *
            omega
      · have hend : isEndTag t = false := by simp [isEndTag, h1, h2]
        have := ih i s
        simp only [runPairing, h1, Bool.false_eq_true, if_false, h2, hop, hend]
        omega

theorem balanced_counts {ts : List LTag} (h : Balanced ts) :
    opensCount ts = endsCount ts := by
  induction h with
  | nil => rfl
  | pair t e inner outer hp he _ _ ih1 ih2 =>
    have ht1 : isOpenTag t = true := hp
    have ht2 : isEndTag t = false := by simp [isEndTag, hp]
    have he3 : isPaired e.name = false := by rw [he]; exact isPaired_endOf _
    have he1 : isOpenTag e = false := by simp [isOpenTag, he3]
    have he4 : startsWithEnd e.name = true := by rw [he]; exact startsWithEnd_endOf _
    have he2 : isEndTag e = true := by simp [isEndTag, he3, he4]
    show opensCount (t :: (inner ++ e :: outer)) = endsCount (t :: (inner ++ e :: outer))
    rw [opensCount_cons, endsCount_cons, opensCount_append, endsCount_append,
      opensCount_cons, endsCount_cons, ht1, ht2, he1, he2]
    omega
  | skip t rest hp hne _ ih =>
    have ht1 : isOpenTag t = false := by simp [isOpenTag, hp]
    have ht2 : isEndTag t = false := by simp [isEndTag, hp, hne]
    rw [opensCount_cons, endsCount_cons, ht1, ht2]
    omega

theorem unclosedCount_append (xs ys : List VIssue) :
    unclosedCount (xs ++ ys) = unclosedCount xs + unclosedCount ys := by
  simp [unclosedCount, List.filter_append]

theorem runPairing_issues_no_unclosed (ts : List LTag) :
    ∀ i s, unclosedCount (runPairing ts i s).1 = unclosedCount i := by
  induction ts with
  | nil => intro i s; rfl
  | cons t ts ih =>
    intro i s
    by_cases h1 : isPaired t.name
    · simp only [runPairing, h1, if_true]
      exact ih i (t :: s)
    · by_cases h2 : startsWithEnd t.name
      · simp only [runPairing, h1, Bool.false_eq_true, if_false, h2, if_true]
        cases s with
        | nil =>
          rw [ih (i ++ [mkUnmatchedEndIssue t]) [], unclosedCount_append]
          simp [unclosedCount, mkUnmatchedEndIssue]
        | cons top rest =>
          by_cases h3 : top.name = expectedOpening t.name
          · simp only [h3, if_true]
            exact ih i rest
          · simp only [h3, if_false]
            rw [ih (i ++ [mkMismatchedIssue top t]) (top :: rest), unclosedCount_append]
            simp [unclosedCount, mkMismatchedIssue]
      · simp only [runPairing, h1, Bool.false_eq_true, if_false, h2]
        exact ih i s

theorem unclosedCount_pairingIssues (ts : List LTag) :
    unclosedCount (pairingIssues ts) = (runPairing ts [] []).2.length := by
  show unclosedCount ((runPairing ts [] []).1 ++
    (runPairing ts [] []).2.reverse.map mkUnclosedIssue) = _
  rw [unclosedCount_append, runPairing_issues_no_unclosed ts [] []]
  simp [unclosedCount, mkUnclosedIssue, List.filter_map]

theorem validate_tag_pairing_eq (content : String) :
    validate_tag_pairing content = pairingIssues (tagsOf content) := rfl

/-- C4 (amended): for any content whose extracted tag sequence is
well-matched, `validate_tag_pairing` returns no issues; and removing any
single closing tag from a well-matched tag sequence produces at least one
`unclosed_tag` issue (not exactly one - see the counterexample: a removed
inner closer cascades into a mismatched-tags issue and several unclosed
tags). -/
theorem C4_tag_balance :
    (∀ content : String, Balanced (tagsOf content) → validate_tag_pairing content = []) ∧
    (∀ (l r : List LTag) (e : LTag), startsWithEnd e.name = true →
      Balanced (l ++ e :: r) → 1 ≤ unclosedCount (pairingIssues (l ++ r))) := by
  constructor
  · intro content h
    rw [validate_tag_pairing_eq]
    show (runPairing (tagsOf content) [] []).1 ++
      (runPairing (tagsOf content) [] []).2.reverse.map mkUnclosedIssue = []
    rw [balanced_run h [] []]
    rfl
  · intro l r e hend hbal
    have hpe : isPaired e.name = false := end_not_paired hend
    have hoe : isOpenTag e = false := by simp [isOpenTag, hpe]
    have hee : isEndTag e = true := by simp [isEndTag, hpe, hend]
    have hc := balanced_counts hbal
    rw [opensCount_append, endsCount_append, opensCount_cons, endsCount_cons,
      hoe, hee] at hc
    norm_num at hc
    have hb := runPairing_stack_bound (l ++ r) [] []
    rw [opensCount_append, endsCount_append] at hb
    rw [unclosedCount_pairingIssues]
    omega

/-- Witness for C4 at `\x7b% if a %\x7d\x7b% endif %\x7d` and at the
one-tag remainder after removing the closing tag. -/
theorem C4_tag_balance_witness :
    validate_tag_pairing "\x7b% if a %\x7d\x7b% endif %\x7d" = [] ∧
    1 ≤ unclosedCount (pairingIssues [⟨"if".toList, 1, 0, "if a".toList⟩]) := by
  have hbal : Balanced [(⟨"if".toList, 1, 0, "if a".toList⟩ : LTag),
      ⟨"endif".toList, 1, 10, "endif".toList⟩] :=
    Balanced.pair _ _ [] [] (by decide) (by decide) Balanced.nil Balanced.nil
  constructor
  · apply C4_tag_balance.1
    rw [show tagsOf "\x7b% if a %\x7d\x7b% endif %\x7d" =
      [(⟨"if".toList, 1, 0, "if a".toList⟩ : LTag),
       ⟨"endif".toList, 1, 10, "endif".toList⟩] from rfl]
    exact hbal
  · exact C4_tag_balance.2 [⟨"if".toList, 1, 0, "if a".toList⟩] []
      ⟨"endif".toList, 1, 10, "endif".toList⟩ (by decide) hbal

/-- Counterexample to C4 as stated: the content
`\x7b% if a %\x7d\x7b% for i in x %\x7d\x7b% endfor %\x7d\x7b% endif %\x7d`
is well-matched, but removing the single closing tag `\x7b% endfor %\x7d`
produces TWO unclosed-tag issues (plus a mismatched-tags issue), not
exactly one. -/
theorem C4_tag_balance_counterexample :
    Balanced (tagsOf
      "\x7b% if a %\x7d\x7b% for i in x %\x7d\x7b% endfor %\x7d\x7b% endif %\x7d") ∧
    (tagsOf "\x7b% if a %\x7d\x7b% for i in x %\x7d\x7b% endfor %\x7d\x7b% endif %\x7d").map
      LTag.name = ["if".toList, "for".toList, "endfor".toList, "endif".toList] ∧
    (tagsOf "\x7b% if a %\x7d\x7b% for i in x %\x7d\x7b% endif %\x7d").map LTag.name =
      ["if".toList, "for".toList, "endif".toList] ∧
    unclosedCount
      (validate_tag_pairing "\x7b% if a %\x7d\x7b% for i in x %\x7d\x7b% endif %\x7d") = 2 := by
  refine ⟨?_, by decide, by decide, by decide⟩
  rw [show tagsOf
      "\x7b% if a %\x7d\x7b% for i in x %\x7d\x7b% endfor %\x7d\x7b% endif %\x7d" =
      [(⟨"if".toList, 1, 0, "if a".toList⟩ : LTag),
       ⟨"for".toList, 1, 10, "for i in x".toList⟩,
       ⟨"endfor".toList, 1, 26, "endfor".toList⟩,
       ⟨"endif".toList, 1, 38, "endif".toList⟩] from rfl]
  exact Balanced.pair _ _ [⟨"for".toList, 1, 10, "for i in x".toList⟩,
      ⟨"endfor".toList, 1, 26, "endfor".toList⟩] [] (by decide) (by decide)
    (Balanced.pair _ _ [] [] (by decide) (by decide) Balanced.nil Balanced.nil)
    Balanced.nil

/-- C5 (amended): every tag of the self-closing set that is NOT also in
the paired set leaves the pairing stack untouched, and content consisting
only of such tags yields no issue at all.  (`case` is in both sets, and
the paired check runs first, so `case` does push - see the
counterexample.) -/
theorem C5_self_closing_no_push :
    ∀ ts : List LTag,
      (∀ t ∈ ts, t.name ∈ SELF_CLOSING_TAGS ∧ t.name ∉ pairedNames) →
      (∀ i s, runPairing ts i s = (i, s)) ∧ pairingIssues ts = [] := by
  have hskip : ∀ (n : Chars), n ∈ SELF_CLOSING_TAGS → startsWithEnd n = false := by
    intro n hm
    simp only [SELF_CLOSING_TAGS] at hm
    fin_cases hm <;> decide
  intro ts h
  have hrun : ∀ i s, runPairing ts i s = (i, s) := by
    induction ts with
    | nil => intro i s; rfl
    | cons t ts ih =>
      intro i s
      have ht := h t (by simp)
      have h1 : isPaired t.name = false := by
        simp [isPaired, ht.2]
      have h2 : startsWithEnd t.name = false := hskip t.name ht.1
      show runPairing (t :: ts) i s = (i, s)
      simp only [runPairing, h1, Bool.false_eq_true, if_false, h2]
      exact ih (fun t ht => h t (by simp [ht])) i s
  refine ⟨hrun, ?_⟩
  show (runPairing ts [] []).1 ++ (runPairing ts [] []).2.reverse.map mkUnclosedIssue = []
  rw [hrun [] []]
  rfl

/-- Witness for C5 at content consisting of an `assign` and an `echo`
tag. -/
theorem C5_self_closing_no_push_witness :
    validate_tag_pairing "\x7b% assign x = 1 %\x7d\x7b% echo x %\x7d" = [] := by
  have h := (C5_self_closing_no_push
    (tagsOf "\x7b% assign x = 1 %\x7d\x7b% echo x %\x7d") (by decide)).2
  exact h

/-- Counterexample to C5 as stated: `case` is listed in
`SELF_CLOSING_TAGS`, yet `\x7b% case x %\x7d` pushes onto the stack
(because `case` is also a key of `PAIRED_TAGS`, which is checked first)
and is reported as an unclosed tag. -/
theorem C5_self_closing_counterexample :
    "case".toList ∈ SELF_CLOSING_TAGS ∧
    validate_tag_pairing "\x7b% case x %\x7d" =
      [⟨"unclosed_tag", Sev.error, 1, "Unclosed case tag",
        "Add \x7b% endcase %\x7d tag"⟩] := by
  exact ⟨by decide, by decide⟩

/-- C10: a closing tag that mismatches the stack top does not pop; one
paired opening tag closed only by a wrong end tag yields exactly one
mismatched-tags issue (for the wrong closer) and one unclosed-tag issue
(for the same opening tag). -/
theorem C10_mismatch_no_pop :
    ∀ (content : String) (t e : LTag), tagsOf content = [t, e] →
      isPaired t.name = true → startsWithEnd e.name = true →
      expectedOpening e.name ≠ t.name →
      validate_tag_pairing content = [mkMismatchedIssue t e, mkUnclosedIssue t] := by
  intro content t e htags hp hend hne
  have hpe : isPaired e.name = false := end_not_paired hend
  rw [validate_tag_pairing_eq, htags]
  show (runPairing [t, e] [] []).1 ++
    (runPairing [t, e] [] []).2.reverse.map mkUnclosedIssue = _
  have hstep : runPairing [t, e] [] [] = ([mkMismatchedIssue t e], [t]) := by
    show runPairing [t, e] [] [] = _
    simp only [runPairing, hp, if_true, hpe, Bool.false_eq_true, if_false, hend]
    rw [if_neg (fun hh => hne hh.symm)]
    rfl
  rw [hstep]
  rfl

/-- Witness for C10 at `\x7b% if x %\x7d\x7b% endfor %\x7d`. -/
theorem C10_mismatch_no_pop_witness :
    validate_tag_pairing "\x7b% if x %\x7d\x7b% endfor %\x7d" =
      [mkMismatchedIssue ⟨"if".toList, 1, 0, "if x".toList⟩
        ⟨"endfor".toList, 1, 10, "endfor".toList⟩,
       mkUnclosedIssue ⟨"if".toList, 1, 0, "if x".toList⟩] := by
  exact C10_mismatch_no_pop "\x7b% if x %\x7d\x7b% endfor %\x7d"
    ⟨"if".toList, 1, 0, "if x".toList⟩ ⟨"endfor".toList, 1, 10, "endfor".toList⟩
    rfl (by decide) (by decide) (by decide)

/-- C3 (amended): filter classification by `validate_liquid_filters` is
total and exclusive per distinct filter name - each name extracted after
`|` in a Liquid block contributes exactly its classification block:
nothing when official, exactly one Critical `hallucinated_filter` issue
with its tailored suggestion when in the hallucinated map, and exactly
one Critical `unknown_filter` issue otherwise.  The stated claim fails
only in that official-but-deprecated names additionally draw a Warning
from `validate_deprecated_filters` (see the counterexample). -/
theorem C3_filter_classification :
    ∀ (content f : String), f ∈ usedFilters content →
      (usedFilters content).Nodup ∧
      (∃ pre post, validate_liquid_filters content =
        pre ++ classifyFilter content f ++ post) ∧
      (∀ sugg, HALLUCINATED_FILTERS.lookup f = some sugg →
        classifyFilter content f =
          [⟨"hallucinated_filter", Sev.critical, findLineNumber content ("| " ++ f),
            "HALLUCINATED FILTER: " ++ f ++ " DOES NOT EXIST", sugg⟩]) ∧
      (HALLUCINATED_FILTERS.lookup f = none → f ∈ OFFICIAL_FILTERS →
        classifyFilter content f = []) ∧
      (HALLUCINATED_FILTERS.lookup f = none → f ∉ OFFICIAL_FILTERS →
        classifyFilter content f =
          [⟨"unknown_filter", Sev.critical, findLineNumber content ("| " ++ f),
            "UNKNOWN FILTER: " ++ f ++ " not in Shopify Liquid",
            "Verify this filter exists in official Shopify documentation"⟩]) := by
  intro content f hf
  refine ⟨List.nodup_dedup _, ?_, ?_, ?_, ?_⟩
  · obtain ⟨pre, post, hsplit⟩ := List.append_of_mem hf
    refine ⟨pre.flatMap (classifyFilter content), post.flatMap (classifyFilter content), ?_⟩
    show (usedFilters content).flatMap (classifyFilter content) = _
    rw [hsplit]
    simp [List.flatMap_append]
  · intro sugg hs
    simp [classifyFilter, hs]
  · intro hn ho
    simp [classifyFilter, hn, ho]
  · intro hn ho
    simp [classifyFilter, hn, ho]

/-- Witness for C3 at `\x7b\x7b a | rgb \x7d\x7d` with the hallucinated
filter `rgb`. -/
theorem C3_filter_classification_witness :
    (∃ pre post, validate_liquid_filters "\x7b\x7b a | rgb \x7d\x7d" =
      pre ++ classifyFilter "\x7b\x7b a | rgb \x7d\x7d" "rgb" ++ post) ∧
    classifyFilter "\x7b\x7b a | rgb \x7d\x7d" "rgb" =
      [⟨"hallucinated_filter", Sev.critical, 1,
        "HALLUCINATED FILTER: rgb DOES NOT EXIST",
        "DOES NOT EXIST - Use CSS rgb() directly"⟩] := by
  have h := C3_filter_classification "\x7b\x7b a | rgb \x7d\x7d" "rgb" (by decide)
  exact ⟨h.2.1, h.2.2.1 "DOES NOT EXIST - Use CSS rgb() directly" (by decide)⟩

/-- Counterexample to C3 as stated: `img_url` is in the official filter
set, yet `\x7b\x7b x | img_url \x7d\x7d` draws one filter-related issue -
the Warning of `validate_deprecated_filters` - rather than zero. -/
theorem C3_filter_classification_counterexample :
    "img_url" ∈ OFFICIAL_FILTERS ∧
    "img_url" ∈ usedFilters "\x7b\x7b x | img_url \x7d\x7d" ∧
    validate_liquid_filters "\x7b\x7b x | img_url \x7d\x7d" = [] ∧
    validate_deprecated_filters "\x7b\x7b x | img_url \x7d\x7d" =
      [⟨"deprecated_filter", Sev.warning, 1, "Deprecated filter: | img_url",
        "Use | image_url instead"⟩] := by
  exact ⟨by decide, by decide, by decide, by decide⟩

/-- C2: for a `range` setting with `step > 0`, both range checks raise
their Error iff `(max - min) / step > 101`, and a range setting with all
three bounds missing (defaults `0, 100, 1`) raises nothing. -/
theorem C2_range_step_invariant :
    (∀ (id : String) (mn mx st : ℚ), 0 < st →
      ((rangeIssuesFor (mkRangeSetting id mn mx st) ≠ [] ∧
        (rangeIssuesFor (mkRangeSetting id mn mx st)).all
          (fun i => i.severity == Sev.error) = true) ↔
        101 < (mx - mn) / st) ∧
      (101 < (mx - mn) / st →
        rangeIssuesFor (mkRangeSetting id mn mx st) =
          [⟨"invalid_range", Sev.error, 0,
            "Range setting " ++ id ++ " violates (max-min)/step <= 101", ""⟩]) ∧
      ((mx - mn) / st ≤ 101 → rangeIssuesFor (mkRangeSetting id mn mx st) = []) ∧
      (scanRangeErrorFor (mkRangeSetting id mn mx st) ≠ [] ↔ 101 < (mx - mn) / st)) ∧
    rangeIssuesFor (Json.jobj [("type", Json.jstr "range")]) = [] := by
  constructor
  · intro id mn mx st hst
    have h1 : getStrOpt (mkRangeSetting id mn mx st) "type" = some "range" := rfl
    have h2 : getNumD (mkRangeSetting id mn mx st) "min" 0 = mn := rfl
    have h3 : getNumD (mkRangeSetting id mn mx st) "max" 100 = mx := rfl
    have h4 : getNumD (mkRangeSetting id mn mx st) "step" 1 = st := rfl
    have h5 : getStrOpt (mkRangeSetting id mn mx st) "id" = some id := rfl
    have hmk : rangeIssuesFor (mkRangeSetting id mn mx st) =
        if 101 < (mx - mn) / st then
          [⟨"invalid_range", Sev.error, 0,
            "Range setting " ++ id ++ " violates (max-min)/step <= 101", ""⟩]
        else [] := by
      simp only [rangeIssuesFor, h1, h2, h3, h4, h5, beq_self_eq_true, if_true,
        Option.getD_some]
      rw [if_pos hst]
    have hmk2 : scanRangeErrorFor (mkRangeSetting id mn mx st) =
        if 101 < (mx - mn) / st then
          ["Range setting " ++ id ++ " violates validation"]
        else [] := by
      simp only [scanRangeErrorFor, h1, h2, h3, h4, h5, beq_self_eq_true, if_true,
        Option.getD_some]
      rw [if_pos hst]
    refine ⟨?_, ?_, ?_, ?_⟩
    · rw [hmk]
      by_cases hgt : 101 < (mx - mn) / st
      · simp [hgt]
      · simp [hgt]
    · intro hgt; rw [hmk, if_pos hgt]
    · intro hle; rw [hmk, if_neg (not_lt.mpr hle)]
    · rw [hmk2]
      by_cases hgt : 101 < (mx - mn) / st
      · simp [hgt]
      · simp [hgt]
  · have h1 : getStrOpt (Json.jobj [("type", Json.jstr "range")]) "type" =
        some "range" := rfl
    have h2 : getNumD (Json.jobj [("type", Json.jstr "range")]) "min" 0 = 0 := rfl
    have h3 : getNumD (Json.jobj [("type", Json.jstr "range")]) "max" 100 = 100 := rfl
    have h4 : getNumD (Json.jobj [("type", Json.jstr "range")]) "step" 1 = 1 := rfl
    simp only [rangeIssuesFor, h1, h2, h3, h4, beq_self_eq_true, if_true]
    rw [if_pos (by norm_num : (0 : ℚ) < 1),
      if_neg (by norm_num : ¬ (101 : ℚ) < (100 - 0) / 1)]

/-- Witness for C2 at `min = 1, max = 1000, step = 1`:
`999 > 101`, so the Error is raised. -/
theorem C2_range_step_invariant_witness :
    (0 : ℚ) < 1 ∧
    rangeIssuesFor (mkRangeSetting "a" 1 1000 1) =
      [⟨"invalid_range", Sev.error, 0,
        "Range setting a violates (max-min)/step <= 101", ""⟩] :=
  ⟨by norm_num,
   ((C2_range_step_invariant.1 "a" 1 1000 1 (by norm_num)).2.1 (by norm_num))⟩

/-- C6 (amended): the duplicate-ID check of scan-schema-integrity.py
considers only top-level `settings[]` ids (one Error per distinct id
occurring more than once there); ids that appear once at top level and
once inside `blocks[].settings[]` are NOT flagged (see the
counterexample).  The concrete schema with `settings` =
`[\x7bid: heading\x7d, \x7bid: heading\x7d]` yields exactly one Error. -/
theorem C6_duplicate_ids :
    (∀ (schema : Json) (i : String),
      i ∈ scanDuplicateIds schema ↔ 1 < List.count i (scanTopSettingIds schema)) ∧
    (∀ schema : Json, (scanDuplicateIds schema).Nodup) ∧
    scanDuplicateIdErrors (Json.jobj [("settings", Json.jarr
      [Json.jobj [("id", Json.jstr "heading")],
       Json.jobj [("id", Json.jstr "heading")]])]) =
      ["Duplicate setting ID: heading"] := by
  refine ⟨?_, ?_, by decide⟩
  · intro schema i
    simp only [scanDuplicateIds, List.mem_filter, List.mem_dedup,
      decide_eq_true_eq]
    constructor
    · exact fun h => h.2
    · intro h
      exact ⟨List.count_pos_iff.mp (by omega), h⟩
  · intro schema
    exact (List.nodup_dedup _).filter _

/-- Counterexample to C6 as stated: an id appearing once in top-level
`settings[]` and once in `blocks[].settings[]` occurs twice in the
claim's flattened id list, yet the duplicate-ID check reports nothing. -/
theorem C6_duplicate_ids_counterexample :
    List.count "heading" (specFlattenedIds (Json.jobj
      [("settings", Json.jarr [Json.jobj [("id", Json.jstr "heading")]]),
       ("blocks", Json.jarr [Json.jobj [("settings", Json.jarr
         [Json.jobj [("id", Json.jstr "heading")]])]])])) = 2 ∧
    scanDuplicateIdErrors (Json.jobj
      [("settings", Json.jarr [Json.jobj [("id", Json.jstr "heading")]]),
       ("blocks", Json.jarr [Json.jobj [("settings", Json.jarr
         [Json.jobj [("id", Json.jstr "heading")]])]])]) = [] := by
  exact ⟨by decide, by decide⟩

theorem countSev_append (s : Sev) (xs ys : List VIssue) :
    countSev s (xs ++ ys) = countSev s xs + countSev s ys := by
  simp [countSev, List.filter_append]

theorem countSev_cons (s : Sev) (i : VIssue) (issues : List VIssue) :
    countSev s (i :: issues) =
      (if i.severity == s then 1 else 0) + countSev s issues := by
  by_cases h : (i.severity == s) = true <;>
    simp [countSev, List.filter_cons, h, Nat.add_comm]

theorem countSev_record_of_allowed (level : VLevel) (s : Sev)
    (hall : s ∈ allowedSeverities level) :
    ∀ (raw acc : List VIssue),
      countSev s (raw.foldl (addIssue level) acc) = countSev s acc + countSev s raw := by
  intro raw
  induction raw with
  | nil => intro acc; simp [countSev]
  | cons i raw ih =>
    intro acc
    show countSev s (raw.foldl (addIssue level) (addIssue level acc i)) = _
    rw [ih, countSev_cons]
    by_cases h1 : i.severity ∈ allowedSeverities level
    · rw [show addIssue level acc i = acc ++ [i] from by simp [addIssue, h1],
        countSev_append]
      rw [show countSev s [i] = (if i.severity == s then 1 else 0) from by
        rw [countSev_cons]; simp [countSev]]
      omega
    · rw [show addIssue level acc i = acc from by simp [addIssue, h1]]
      have hnot : (i.severity == s) = false := by
        by_cases h : i.severity = s
        · exact absurd (h ▸ hall) h1
        · simp [h]
      rw [hnot]
      simp

theorem critical_allowed (level : VLevel) : Sev.critical ∈ allowedSeverities level := by
  cases level <;> decide

theorem error_allowed (level : VLevel) : Sev.error ∈ allowedSeverities level := by
  cases level <;> decide

theorem countSev_eq_zero_of_all {s : Sev} {raw : List VIssue}
    (h : ∀ i ∈ raw, i.severity ≠ s) : countSev s raw = 0 := by
  simp only [countSev, List.length_eq_zero]
  rw [List.filter_eq_nil_iff]
  intro i hi
  simp [h i hi]

/-- C7: for every validation level, the final verdict fails iff the run
recorded at least one Critical or Error issue (level filtering never drops
those severities), and a run whose raw issues are all Warning or Info
always passes - and also exits with code 0 under the
character-encoding-validator convention. -/
theorem C7_verdict_iff :
    ∀ (raw : List VIssue) (level : VLevel),
      (generateFinalReportPasses (recordIssues level raw) = false ↔
        0 < countSev Sev.critical raw + countSev Sev.error raw) ∧
      ((∀ i ∈ raw, i.severity = Sev.warning ∨ i.severity = Sev.info) →
        generateFinalReportPasses (recordIssues level raw) = true ∧
        charValidatorExitCode raw = 0) := by
  intro raw level
  have hc : countSev Sev.critical (recordIssues level raw) =
      countSev Sev.critical raw := by
    show countSev Sev.critical (raw.foldl (addIssue level) []) = _
    rw [countSev_record_of_allowed level Sev.critical (critical_allowed level)]
    simp [countSev]
  have he : countSev Sev.error (recordIssues level raw) =
      countSev Sev.error raw := by
    show countSev Sev.error (raw.foldl (addIssue level) []) = _
    rw [countSev_record_of_allowed level Sev.error (error_allowed level)]
    simp [countSev]
  constructor
  · simp only [generateFinalReportPasses, hc, he, beq_eq_false_iff_ne, ne_eq]
    omega
  · intro hall
    have h1 : countSev Sev.critical raw = 0 :=
      countSev_eq_zero_of_all (fun i hi => by rcases hall i hi with h | h <;> simp [h])
    have h2 : countSev Sev.error raw = 0 :=
      countSev_eq_zero_of_all (fun i hi => by rcases hall i hi with h | h <;> simp [h])
    constructor
    · simp [generateFinalReportPasses, hc, he, h1, h2]
    · simp [charValidatorExitCode, h1, h2]

/-- Witness for C7 at one Warning issue under the development level. -/
theorem C7_verdict_iff_witness :
    generateFinalReportPasses (recordIssues VLevel.development
      [⟨"hardcoded_route", Sev.warning, 1, "Hardcoded route found", ""⟩]) = true ∧
    charValidatorExitCode
      [⟨"hardcoded_route", Sev.warning, 1, "Hardcoded route found", ""⟩] = 0 :=
  (C7_verdict_iff [⟨"hardcoded_route", Sev.warning, 1, "Hardcoded route found", ""⟩]
    VLevel.development).2 (by decide)

/-- C1: the context cascade of the unescaped-output scanner.  A
user-controllable expression carrying a URL-generating filter inside an
`href` attribute yields no issue; `\x7b\x7b block.settings.heading \x7d\x7d`
in a plain HTML body with no filters yields exactly one Error-severity
`unescaped_block_setting` issue; the same expression with `| escape`
appended yields none. -/
theorem C1_escape_context_cascade :
    validate_unescaped_output
      "<a href=\"\x7b\x7b product.featured_image | image_url: width: 300 \x7d\x7d\">Link</a>" = [] ∧
    validate_unescaped_output "<h2>\x7b\x7b block.settings.heading \x7d\x7d</h2>" =
      [⟨"unescaped_block_setting", Sev.error, 1,
        "User-controllable content without escape filter",
        "Add | escape filter to prevent XSS and encoding issues"⟩] ∧
    validate_unescaped_output "<h2>\x7b\x7b block.settings.heading | escape \x7d\x7d</h2>" = [] := by
  exact ⟨by decide, by decide, by decide⟩

/-- C8 (amended): only the Theme-Store and complexity checks match against
comment-stripped content - when stripping empties the content they report
nothing - while the performance and filter-legality checks run on the raw
content and do flag pattern occurrences that sit entirely inside
`\x7b% comment %\x7d` blocks (so the stated across-the-board equivalence
fails; see the counterexample). -/
theorem C8_comment_stripping_scope :
    (∀ content : String, removeLiquidComments content.toList = [] →
      validate_theme_store content = [] ∧ validate_complexity content = []) ∧
    validate_performance
      "\x7b% comment %\x7d\n\x7b% for product in collections.all.products %\x7d\n\x7b% endcomment %\x7d" =
      [⟨"performance", Sev.critical, 2,
        "PERFORMANCE KILLER: Looping ALL products breaks themes",
        "Use pagination or specific collection"⟩] ∧
    validate_liquid_filters
      "\x7b% comment %\x7d\x7b\x7b a | madeupfilter \x7d\x7d\x7b% endcomment %\x7d" =
      [⟨"unknown_filter", Sev.critical, 1,
        "UNKNOWN FILTER: madeupfilter not in Shopify Liquid",
        "Verify this filter exists in official Shopify documentation"⟩] := by
  refine ⟨?_, by decide, by decide⟩
  intro content h
  constructor
  · show validate_theme_store content = []
    unfold validate_theme_store
    simp only [h]
    rfl
  · show validate_complexity content = []
    unfold validate_complexity
    simp only [h]
    rfl

/-- Witness for C8 at a content that is one whole comment block. -/
theorem C8_comment_stripping_scope_witness :
    validate_theme_store "\x7b% comment %\x7dconsole.log(1)\x7b% endcomment %\x7d" = [] ∧
    validate_complexity "\x7b% comment %\x7dconsole.log(1)\x7b% endcomment %\x7d" = [] :=
  C8_comment_stripping_scope.1
    "\x7b% comment %\x7dconsole.log(1)\x7b% endcomment %\x7d" (by decide)

/-- Counterexample to C8 as stated: a performance-killer loop that occurs
only inside a `\x7b% comment %\x7d` body is still reported by
`validate_performance` on the raw content, and is not reported on the
comment-stripped content - the two issue lists differ. -/
theorem C8_comment_stripping_counterexample :
    (validate_performance
      "\x7b% comment %\x7d\n\x7b% for product in collections.all.products %\x7d\n\x7b% endcomment %\x7d").length = 1 ∧
    validate_performance (String.mk (removeLiquidComments
      "\x7b% comment %\x7d\n\x7b% for product in collections.all.products %\x7d\n\x7b% endcomment %\x7d".toList)) = [] := by
  exact ⟨by decide, by decide⟩

/-- C9: when the extracted schema block of a schema-requiring file fails
strict JSON parsing, `validate_schema_integrity` reports exactly one
Critical `invalid_schema` issue and every schema-dependent sub-check is
skipped, while the Liquid-body checks of `validate_file` contribute their
issues for the same file unchanged. -/
theorem C9_malformed_schema_isolation :
    ∀ (content path : String) (inner : Chars),
      detect_file_type path ∈ SCHEMA_REQUIRED_TYPES →
      extractSchemaInner content = some inner →
      parseJson (String.mk (pyStrip inner)) = none →
      validate_schema_integrity content path =
        [⟨"invalid_schema", Sev.critical, findLineNumber content "\x7b% schema %\x7d",
          "Invalid JSON in schema", ""⟩] ∧
      validate_file_issues content path =
        validate_liquid_filters content ++ validate_shopify_objects content ++
        validate_complexity content ++ validate_performance content ++
        validate_theme_store content ++
        [⟨"invalid_schema", Sev.critical, findLineNumber content "\x7b% schema %\x7d",
          "Invalid JSON in schema", ""⟩] := by
  intro content path inner hreq hex hparse
  have hshould : should_have_schema (detect_file_type path) path content = true := by
    simp [should_have_schema, hreq]
  have h1 : validate_schema_integrity content path =
      [⟨"invalid_schema", Sev.critical, findLineNumber content "\x7b% schema %\x7d",
        "Invalid JSON in schema", ""⟩] := by
    unfold validate_schema_integrity
    simp only [hex, hshould, hparse, Bool.not_true, Bool.false_eq_true, if_false]
  exact ⟨h1, by unfold validate_file_issues; rw [h1]⟩

/-- Witness for C9 at a section file whose schema block holds malformed
JSON and whose body uses an unknown filter: the invalid-schema issue is
the only schema issue, and the filter check still reports. -/
theorem C9_malformed_schema_isolation_witness :
    validate_schema_integrity
      "\x7b\x7b x | fakefilter \x7d\x7d\n\x7b% schema %\x7d\n\x7b broken\n\x7b% endschema %\x7d"
      "sections/hero.liquid" =
      [⟨"invalid_schema", Sev.critical, 2, "Invalid JSON in schema", ""⟩] ∧
    validate_liquid_filters
      "\x7b\x7b x | fakefilter \x7d\x7d\n\x7b% schema %\x7d\n\x7b broken\n\x7b% endschema %\x7d" ≠ [] := by
  have h := (C9_malformed_schema_isolation
    "\x7b\x7b x | fakefilter \x7d\x7d\n\x7b% schema %\x7d\n\x7b broken\n\x7b% endschema %\x7d"
    "sections/hero.liquid" "\n\x7b broken\n".toList
    (by decide) (by decide) rfl).1
  exact ⟨h, by decide⟩

end ShopifyLiquid
